import Mathlib

/-!
Verification development for the gofinfi provisioning worker.

The worker scaffolds a directory-like layout inside an object store for an
account identified by a 9-character base62 token (an "acid").  Strings are
modeled by Lean `String` (a list of characters, matching Python string
semantics character by character); every object-store write performed by the
code is modeled as a `WriteOp` value recording the key, the body, the content
type, the tagging string and the server-side-encryption setting that the code
passes to the store, and each operation of the system is embedded as a
function producing its list of writes in program order.  The object-store
listing service is modeled by the bucket's key list together with a page size:
one listing call returns at most one page of common prefixes plus a truncation
flag, exactly the information the code receives from a single
list-objects call.
-/

set_option maxHeartbeats 1000000

/-- Characters allowed in a base62 account identifier: A-Z, a-z, 0-9. -/
def isBase62 (c : Char) : Bool :=
  ('0' ≤ c && c ≤ '9') || ('A' ≤ c && c ≤ 'Z') || ('a' ≤ c && c ≤ 'z')

/-- Python truthiness of an optional string: None and the empty string are falsy. -/
def pyTruthy : Option String → Bool
  | none => false
  | some s => s != ""

/-- Python `a or d` for an optional string `a` and a string default `d`. -/
def pyOrStr (o : Option String) (d : String) : String :=
  match o with
  | none => d
  | some s => if s = "" then d else s

/-- Python `s.strip()`: trim whitespace from both ends. -/
def pyStrip (s : String) : String :=
  ⟨((s.data.dropWhile Char.isWhitespace).reverse.dropWhile Char.isWhitespace).reverse⟩

/-- Python `s.endswith("/")`: the last character is a slash. -/
def pyEndsWithSlash (s : String) : Bool :=
  match s.data.reverse with
  | '/' :: _ => true
  | _ => false

/-- The characters of the display prefix literal used by the code. -/
def acidDash : List Char := ['a', 'c', 'i', 'd', '-']

/-- Python `s.replace("acid-", "")`: remove every occurrence of the display
prefix literal, scanning left to right.  At a position where fewer than five
characters remain no occurrence can start, so the scan just emits them. -/
def stripAcidAll : List Char → List Char
  | c1 :: c2 :: c3 :: c4 :: c5 :: cs =>
    if c1 = 'a' ∧ c2 = 'c' ∧ c3 = 'i' ∧ c4 = 'd' ∧ c5 = '-' then stripAcidAll cs
    else c1 :: stripAcidAll (c2 :: c3 :: c4 :: c5 :: cs)
  | c :: cs => c :: stripAcidAll cs
  | [] => []

/-- Python `s.replace("-", "")`: remove every dash character. -/
def dropDashes (l : List Char) : List Char := l.filter (fun c => c != '-')

/-- aws.fmt_acid_display: turn a 9-char base62 acid into the
`acid-XXX-XX-XXXX` display form; inputs already carrying the display prefix,
empty inputs, and inputs shorter than 9 characters are returned unchanged. -/
def fmt_acid_display (s : String) : String :=
  if s.data = [] then s
  else if acidDash.isPrefixOf s.data then s
  else if 9 ≤ s.data.length then
    ⟨acidDash ++ s.data.take 3 ++ ['-'] ++ (s.data.drop 3).take 2 ++ ['-'] ++ (s.data.drop 5).take 4⟩
  else s

/-- aws.to_raw_acid: convert raw or display form to the raw form by removing
the display prefix literal and then all dashes; other inputs pass through. -/
def to_raw_acid (s : String) : String :=
  if s.data = [] then s
  else if acidDash.isPrefixOf s.data then ⟨dropDashes (stripAcidAll s.data)⟩
  else s

/-- aws.normalize_acid: raw form paired with display form. -/
def normalize_acid (s : String) : String × String :=
  let raw := to_raw_acid s
  (raw, fmt_acid_display (if raw.data = [] then s else raw))

/-- aws.sanitize_name: replace slashes and backslashes with dashes, trim
whitespace, and fall back to a fixed placeholder when empty. -/
def sanitize_name (name : String) : String :=
  let t := pyStrip ⟨name.data.map (fun c => if c = '/' || c = '\\' then '-' else c)⟩
  if t = "" then "Unnamed" else t

/-- api_v201._fmt_acid_display: like the aws formatter but it strips
whitespace first and prepends the display prefix to short inputs. -/
def api_fmt_acid_display (s : String) : String :=
  let a := pyStrip s
  if acidDash.isPrefixOf a.data then a
  else if 9 ≤ a.data.length then
    ⟨acidDash ++ a.data.take 3 ++ ['-'] ++ (a.data.drop 3).take 2 ++ ['-'] ++ (a.data.drop 5).take 4⟩
  else ⟨acidDash ++ a.data⟩

/-- JSON values, the shape of the documents the code serializes. -/
inductive JVal where
  | jnull : JVal
  | jbool : Bool → JVal
  | jnum : Int → JVal
  | jstr : String → JVal
  | jarr : List JVal → JVal
  | jobj : List (String × JVal) → JVal

/-- A Python optional string as a JSON value (None serializes to null). -/
def optJ : Option String → JVal
  | none => JVal.jnull
  | some s => JVal.jstr s

/-- Look a key up in a JSON object; `none` on any other JSON value. -/
def jLookup (k : String) : JVal → Option JVal
  | JVal.jobj fs => fs.findSome? (fun p => if p.1 = k then some p.2 else none)
  | _ => none

/-- Body of an object-store write: a zero-byte marker, UTF-8 text, raw bytes
(held as the source literal), or a JSON document (serialization abstracted). -/
inductive WBody where
  | empty : WBody
  | text : String → WBody
  | bytes : String → WBody
  | json : JVal → WBody

/-- Server-side-encryption setting passed on a write. -/
inductive SSEMode where
  | aes256 : SSEMode
  | kms : String → SSEMode

/-- One object-store write exactly as issued: key, body, declared content
type, the tagging string passed (if any) and the encryption setting passed
(if any). -/
structure WriteOp where
  key : String
  body : WBody
  contentType : Option String
  tagging : Option String
  sse : Option SSEMode

/-- Environment-derived configuration of the aws module. -/
structure Cfg where
  bucket : String
  kmsKeyId : Option String
  numberedLayout : Bool
  createKeepFiles : Bool
  seedSampleFiles : Bool

/-- aws._tagging: the tag string `acid=<acid>` joined with `org=<org>` when an
organization id is present (Python truthiness: None or empty means absent). -/
def _tagging (acid : String) (org : Option String) : String :=
  "acid=" ++ acid ++ (match org with
    | some o => if o = "" then "" else "&org=" ++ o
    | none => "")

/-- aws._sse_kwargs: KMS-backed encryption when a key id is configured,
otherwise the default AES256 algorithm. -/
def _sse_kwargs (kms : Option String) : SSEMode :=
  match kms with
  | some k => if k = "" then SSEMode.aes256 else SSEMode.kms k
  | none => SSEMode.aes256

/-- The common shape of every aws-module write: s3.put_object with the
tagging string and the encryption kwargs attached. -/
def awsPut (cfg : Cfg) (acid : String) (org : Option String) (key : String)
    (body : WBody) (ct : Option String) : WriteOp :=
  ⟨key, body, ct, some (_tagging acid org), some (_sse_kwargs cfg.kmsKeyId)⟩

/-- aws.put_empty. -/
def put_empty (cfg : Cfg) (key : String) (acid : String) (org : Option String) : WriteOp :=
  awsPut cfg acid org key WBody.empty none

/-- aws.put_text. -/
def put_text (cfg : Cfg) (key : String) (text : String) (acid : String)
    (org : Option String) (ct : String) : WriteOp :=
  awsPut cfg acid org key (WBody.text text) (some ct)

/-- aws.put_bytes. -/
def put_bytes (cfg : Cfg) (key : String) (data : String) (acid : String)
    (org : Option String) (ct : Option String) : WriteOp :=
  awsPut cfg acid org key (WBody.bytes data) ct

/-- aws.put_json: a text write of the serialized document with JSON content
type; the body is kept as the structured document. -/
def put_json (cfg : Cfg) (key : String) (obj : JVal) (acid : String)
    (org : Option String) : WriteOp :=
  awsPut cfg acid org key (WBody.json obj) (some ("application/json"))

/-- aws._prefix_for: folder prefix under classic vs numbered layout. -/
def _prefix_for (name level : String) (numbered : Bool) : String :=
  if numbered then level ++ "-" ++ name ++ "/" else name ++ "/"

/-- The mapping of the nine top-level section names to absolute prefixes, in
the insertion order of the source dict. -/
structure Tops where
  meta : String
  uploads : String
  intake : String
  profiles : String
  applications : String
  exports : String
  shared : String
  worklog : String
  archive : String

/-- aws._folders_top. -/
def _folders_top (base : String) (numbered : Bool) : Tops :=
  ⟨base ++ _prefix_for ("_meta") ("00") numbered,
   base ++ _prefix_for ("uploads") ("10") numbered,
   base ++ _prefix_for ("intake") ("20") numbered,
   base ++ _prefix_for ("profiles") ("30") numbered,
   base ++ _prefix_for ("applications") ("50") numbered,
   base ++ _prefix_for ("exports") ("60") numbered,
   base ++ _prefix_for ("shared") ("70") numbered,
   base ++ _prefix_for ("worklog") ("80") numbered,
   base ++ _prefix_for ("archive") ("90") numbered⟩

/-- The dict values in insertion order. -/
def Tops.values (t : Tops) : List String :=
  [t.meta, t.uploads, t.intake, t.profiles, t.applications, t.exports,
   t.shared, t.worklog, t.archive]

/-- One iteration of the aws._ensure_folders loop: normalize the prefix to end
with a slash, write the zero-byte marker, and optionally the .keep marker. -/
def ensureOne (cfg : Cfg) (acid : String) (org : Option String) (p : String) : List WriteOp :=
  let p' := if pyEndsWithSlash p then p else p ++ "/"
  [put_empty cfg p' acid org]
    ++ (if cfg.createKeepFiles then [put_empty cfg (p' ++ ".keep") acid org] else [])

/-- aws._ensure_folders. -/
def _ensure_folders (cfg : Cfg) (ps : List String) (acid : String) (org : Option String) : List WriteOp :=
  ps.flatMap (ensureOne cfg acid org)

/-- A person entry of the provisioning payload (a parsed JSON dict). -/
structure PersonP where
  name : Option String
  notes : Option String
  devices : List String
  vehicles : List String

/-- A company entry of the provisioning payload. -/
structure CompanyP where
  name : Option String
  notes : Option String
  domains : List String

/-- The summary dict returned by aws._seed_from_payload. -/
structure Summary where
  persons : List String
  companies : List String

/-- The writes of one person iteration of aws._seed_from_payload. -/
def seedPerson (cfg : Cfg) (profiles acid : String) (org : Option String) (p : PersonP) : List WriteOp :=
  let pname := sanitize_name (pyOrStr p.name ("Unnamed Person"))
  let root := profiles ++ "person/" ++ pname ++ "/"
  _ensure_folders cfg [root, root ++ "documents/", root ++ "vehicle/", root ++ "device/"] acid org
    ++ (match p.notes with
        | some t =>
          if t = "" then []
          else [put_text cfg (root ++ "notes.md") ("# " ++ pname ++ "\n\n" ++ t ++ "\n") acid org ("text/markdown")]
        | none => [])
    ++ (p.vehicles.flatMap (fun v =>
          let vname := sanitize_name v
          let vroot := root ++ "vehicle/" ++ vname ++ "/"
          _ensure_folders cfg [vroot] acid org
            ++ [put_text cfg (vroot ++ "notes.md") ("# " ++ vname ++ "\n") acid org ("text/markdown")]))
    ++ (p.devices.flatMap (fun d =>
          let dname := sanitize_name d
          let droot := root ++ "device/" ++ dname ++ "/"
          _ensure_folders cfg [droot] acid org
            ++ [put_text cfg (droot ++ "notes.md") ("# " ++ dname ++ "\n") acid org ("text/markdown")]))

/-- The writes of one company iteration of aws._seed_from_payload. -/
def seedCompany (cfg : Cfg) (profiles acid : String) (org : Option String) (c : CompanyP) : List WriteOp :=
  let cname := sanitize_name (pyOrStr c.name ("Unnamed Company"))
  let root := profiles ++ "company/" ++ cname ++ "/"
  _ensure_folders cfg [root, root ++ "legal/", root ++ "financials/", root ++ "domain/"] acid org
    ++ (match c.notes with
        | some t =>
          if t = "" then []
          else [put_text cfg (root ++ "notes.md") ("# " ++ cname ++ "\n\n" ++ t ++ "\n") acid org ("text/markdown")]
        | none => [])
    ++ (c.domains.flatMap (fun dom =>
          let dname := sanitize_name dom
          let droot := root ++ "domain/" ++ dname ++ "/"
          _ensure_folders cfg [droot] acid org
            ++ [put_text cfg (droot ++ "notes.md") ("# " ++ dname ++ "\n") acid org ("text/markdown"),
                put_text cfg (droot ++ "dns-records.txt") ("") acid org ("text/plain")]))

/-- aws._seed_from_payload: the writes of both loops in order, and the created
summary (the sanitized names appended per iteration). -/
def _seed_from_payload (cfg : Cfg) (profiles acid : String) (org : Option String)
    (persons : List PersonP) (companies : List CompanyP) : List WriteOp × Summary :=
  (persons.flatMap (seedPerson cfg profiles acid org)
     ++ companies.flatMap (seedCompany cfg profiles acid org),
   ⟨persons.map (fun p => sanitize_name (pyOrStr p.name ("Unnamed Person"))),
    companies.map (fun c => sanitize_name (pyOrStr c.name ("Unnamed Company")))⟩)

/-- The writes of the default-person branch of aws._seed_defaults_if_empty. -/
def defaultPersonWrites (cfg : Cfg) (profiles acid : String) (org : Option String) : List WriteOp :=
  let root := profiles ++ "person/Default Person/"
  let vroot := root ++ "vehicle/Default Vehicle/"
  let droot := root ++ "device/Default Device/"
  _ensure_folders cfg [root, root ++ "documents/", root ++ "vehicle/", root ++ "device/"] acid org
    ++ [put_text cfg (root ++ "notes.md") ("# Default Person\n") acid org ("text/markdown")]
    ++ _ensure_folders cfg [vroot, droot] acid org
    ++ [put_text cfg (vroot ++ "notes.md") ("# Default Vehicle\n") acid org ("text/markdown"),
        put_text cfg (droot ++ "notes.md") ("# Default Device\n") acid org ("text/markdown")]

/-- The writes of the default-company branch of aws._seed_defaults_if_empty. -/
def defaultCompanyWrites (cfg : Cfg) (profiles acid : String) (org : Option String) : List WriteOp :=
  let root := profiles ++ "company/Default Company/"
  _ensure_folders cfg [root, root ++ "legal/", root ++ "financials/"] acid org
    ++ [put_text cfg (root ++ "notes.md") ("# Default Company\n") acid org ("text/markdown")]

/-- aws._seed_defaults_if_empty: each default branch fires exactly when the
corresponding created list is empty. -/
def _seed_defaults_if_empty (cfg : Cfg) (profiles : String) (created : Summary)
    (acid : String) (org : Option String) : List WriteOp :=
  (if created.persons = [] then defaultPersonWrites cfg profiles acid org else [])
    ++ (if created.companies = [] then defaultCompanyWrites cfg profiles acid org else [])

/-- aws._seed_sample_files_legacy: the optional demo seeding writes. -/
def _seed_sample_files_legacy (cfg : Cfg) (tops : Tops) (acid : String) (org : Option String) : List WriteOp :=
  [put_bytes cfg (tops.applications ++ "package.pdf") ("%PDF-1.4\n% placeholder package\n") acid org (some ("application/pdf")),
   put_bytes cfg (tops.applications ++ "decision-letter.pdf") ("%PDF-1.4\n% placeholder decision\n") acid org (some ("application/pdf")),
   put_text cfg (tops.profiles ++ "profiles.md") ("# Profiles\n\nGlobal notes for all profiles.\n") acid org ("text/markdown")]
    ++ (let dd := tops.profiles ++ "person/Don Draper/"
        _ensure_folders cfg [dd, dd ++ "documents/", dd ++ "vehicle/", dd ++ "device/"] acid org
          ++ [put_text cfg (dd ++ "notes.md") ("# Don Draper\n\nNotes go here.\n") acid org ("text/markdown")]
          ++ (["passport.pdf", "driver-license.pdf", "utility-bill.pdf", "bank-statement-proof.pdf", "contract.pdf"].map
                (fun f => put_bytes cfg (dd ++ "documents/" ++ f) ("%PDF-1.4\n% placeholder\n") acid org (some ("application/pdf"))))
          ++ (let mustang := dd ++ "vehicle/Mustang-1965/"
              _ensure_folders cfg [mustang] acid org
                ++ [put_text cfg (mustang ++ "notes.md") ("# Mustang 1965\n") acid org ("text/markdown"),
                    put_bytes cfg (mustang ++ "title.pdf") ("%PDF-1.4\n") acid org (some ("application/pdf")),
                    put_bytes cfg (mustang ++ "insurance.pdf") ("%PDF-1.4\n") acid org (some ("application/pdf"))])
          ++ (let iphone := dd ++ "device/iPhone15/"
              _ensure_folders cfg [iphone] acid org
                ++ [put_text cfg (iphone ++ "notes.md") ("# iPhone 15\n") acid org ("text/markdown"),
                    put_text cfg (iphone ++ "imei.txt") ("IMEI: 000000000000000\n") acid org ("text/plain")]))
    ++ (let sc := tops.profiles ++ "company/SterlingCooper/"
        _ensure_folders cfg [sc, sc ++ "legal/", sc ++ "financials/", sc ++ "domain/"] acid org
          ++ [put_text cfg (sc ++ "notes.md") ("# Sterling Cooper\n") acid org ("text/markdown")]
          ++ (["articles.pdf", "operating-agreement.pdf", "certificate-of-good-standing.pdf", "ein-verification-letter.pdf", "business-license.pdf", "bank-resolution.pdf"].map
                (fun f => put_bytes cfg (sc ++ "legal/" ++ f) ("%PDF-1.4\n") acid org (some ("application/pdf"))))
          ++ (["monthly-statement-2025-07.pdf", "monthly-statement-2025-06.pdf", "monthly-statement-2025-05.pdf", "tax-return-2023.pdf", "tax-return-2024.pdf"].map
                (fun f => put_bytes cfg (sc ++ "financials/" ++ f) ("%PDF-1.4\n") acid org (some ("application/pdf"))))
          ++ (let domain := sc ++ "domain/sterlingcooper.com/"
              _ensure_folders cfg [domain] acid org
                ++ [put_text cfg (domain ++ "notes.md") ("# sterlingcooper.com\n") acid org ("text/markdown"),
                    put_text cfg (domain ++ "dns-records.txt") ("A 1.2.3.4\nCNAME www -> apex\n") acid org ("text/plain")]))

/-- The `links` dict of the account document written by aws.provision_account. -/
def linksJ (bucket : String) (t : Tops) : JVal :=
  JVal.jobj [
    ("_meta", JVal.jstr ("s3://" ++ bucket ++ "/" ++ t.meta)),
    ("uploads", JVal.jstr ("s3://" ++ bucket ++ "/" ++ t.uploads)),
    ("intake", JVal.jstr ("s3://" ++ bucket ++ "/" ++ t.intake)),
    ("profiles", JVal.jstr ("s3://" ++ bucket ++ "/" ++ t.profiles)),
    ("applications", JVal.jstr ("s3://" ++ bucket ++ "/" ++ t.applications)),
    ("exports", JVal.jstr ("s3://" ++ bucket ++ "/" ++ t.exports)),
    ("shared", JVal.jstr ("s3://" ++ bucket ++ "/" ++ t.shared)),
    ("worklog", JVal.jstr ("s3://" ++ bucket ++ "/" ++ t.worklog)),
    ("archive", JVal.jstr ("s3://" ++ bucket ++ "/" ++ t.archive))]

/-- The account document built by aws.provision_account, field for field. -/
def provisionAccountJson (cfg : Cfg) (now : Int) (acid_raw acid_disp : String)
    (org name : Option String) (tops : Tops) : JVal :=
  JVal.jobj [
    ("acid", JVal.jstr acid_raw),
    ("acid_display", JVal.jstr acid_disp),
    ("org_id", optJ org),
    ("name", optJ name),
    ("links", linksJ cfg.bucket tops),
    ("layout", JVal.jstr (if cfg.numberedLayout then "numbered" else "classic")),
    ("version", JVal.jnum 2),
    ("created_at", JVal.jnum now)]

/-- The checklist stub text written by aws.provision_account (a pre-serialized
JSON string passed to put_text). -/
def checklistBody : String :=
  "\x7b\"note\": \"Replace with a signed S3 URL or pointer to exports/\"\x7d"

/-- aws.provision_account: the full write sequence in program order, paired
with the returned base prefix. -/
def provision_account (cfg : Cfg) (now : Int) (acid_input : String)
    (org name : Option String) (persons : List PersonP) (companies : List CompanyP) :
    List WriteOp × String :=
  let acid_raw := (normalize_acid acid_input).1
  let acid_disp := (normalize_acid acid_input).2
  let base := "a/" ++ acid_disp ++ "/"
  let tops := _folders_top base cfg.numberedLayout
  let created := _seed_from_payload cfg tops.profiles acid_raw org persons companies
  (_ensure_folders cfg tops.values acid_raw org
     ++ [put_json cfg (tops.meta ++ "account.json") (provisionAccountJson cfg now acid_raw acid_disp org name tops) acid_raw org,
         put_json cfg (tops.meta ++ "relationships.json") (JVal.jobj [("people", JVal.jarr []), ("companies", JVal.jarr [])]) acid_raw org,
         put_text cfg (tops.shared ++ "checklist.gdoc.link") checklistBody acid_raw org ("application/json"),
         put_text cfg (tops.worklog ++ "progress-log.md") ("# Progress Log\n") acid_raw org ("text/markdown"),
         put_text cfg (tops.worklog ++ "decisions.md") ("# Decisions\n") acid_raw org ("text/markdown"),
         put_text cfg (tops.profiles ++ "profiles.md") ("# Profiles\n\nLoose notes on profile changes.\n") acid_raw org ("text/markdown")]
     ++ created.1
     ++ _seed_defaults_if_empty cfg tops.profiles created.2 acid_raw org
     ++ (if cfg.seedSampleFiles then _seed_sample_files_legacy cfg tops acid_raw org else []),
   base)

/-- The write trace of one provision call. -/
def provisionTrace (cfg : Cfg) (now : Int) (acid_input : String)
    (org name : Option String) (persons : List PersonP) (companies : List CompanyP) : List WriteOp :=
  (provision_account cfg now acid_input org name persons companies).1

/-- The default configuration from the environment defaults of the source. -/
def defaultCfg : Cfg :=
  ⟨"gofinfi-portal", none, false, true, false⟩

/-- Deduplicate a key list keeping first occurrences (the listing service
reports each distinct child prefix once). -/
def dedupFirstAux : List String → List String → List String
  | _, [] => []
  | seen, x :: xs =>
    if x ∈ seen then dedupFirstAux seen xs
    else x :: dedupFirstAux (x :: seen) xs

/-- Deduplicate keeping first occurrences. -/
def dedupKeys (l : List String) : List String := dedupFirstAux [] l

/-- The common prefixes a delimiter-bounded listing of the store computes for
a prefix: for every stored key extending the prefix and containing a further
slash, the prefix up to and including that slash, each reported once. -/
def commonPrefixes (keys : List String) (pref : String) : List String :=
  dedupKeys (keys.filterMap (fun k =>
    if pref.data.isPrefixOf k.data then
      let rest := k.data.drop pref.data.length
      let seg := rest.takeWhile (fun c => c != '/')
      if seg.length < rest.length then some (pref ++ ⟨seg⟩ ++ "/") else none
    else none))

/-- One page of a list-objects call: at most `pageSize` common prefixes and a
truncation flag telling the caller whether more pages exist. -/
structure ListPage where
  commonPrefixes : List String
  isTruncated : Bool

/-- One call of the listing operation: the service returns only the first
`pageSize` results and sets the truncation flag when results remain. -/
def list_objects_v2 (pageSize : Nat) (keys : List String) (pref : String) : ListPage :=
  let all := commonPrefixes keys pref
  ⟨all.take pageSize, decide (pageSize < all.length)⟩

/-- Python `path.rstrip("/")`: drop all trailing slashes. -/
def rstripSlashes (s : String) : String :=
  ⟨(s.data.reverse.dropWhile (fun c => c == '/')).reverse⟩

/-- Python `path.rstrip("/").split("/")[-1]`: the segment after the last
remaining slash. -/
def lastSeg (s : String) : String :=
  ⟨((rstripSlashes s).data.reverse.takeWhile (fun c => c != '/')).reverse⟩

/-- A person or company record of the discovery routine. -/
structure Entity where
  name : String
  path : String

/-- A device, vehicle or domain record of the discovery routine. -/
structure OwnedEntity where
  name : String
  ownerType : String
  ownerName : String
  path : String

/-- The five lists api_v201._discover_profiles accumulates. -/
structure Discovered where
  people : List Entity
  companies : List Entity
  devices : List OwnedEntity
  vehicles : List OwnedEntity
  domains : List OwnedEntity

/-- api_v201._base. -/
def _base (acid_display : String) : String := "a/" ++ acid_display ++ "/"

/-- api_v201._profiles_base. -/
def _profiles_base (acid_display : String) : String := _base acid_display ++ "profiles/"

/-- api_v201._discover_profiles: inventory the store by one listing call per
prefix, reading only the common prefixes of the returned page. -/
def _discover_profiles (pageSize : Nat) (keys : List String) (acid_display : String) : Discovered :=
  let base := _profiles_base acid_display
  let personPaths := (list_objects_v2 pageSize keys (base ++ "person/")).commonPrefixes
  let people := personPaths.map (fun pp => Entity.mk (lastSeg pp) pp)
  let devices := personPaths.flatMap (fun pp =>
    ((list_objects_v2 pageSize keys (pp ++ "device/")).commonPrefixes).map
      (fun dp => OwnedEntity.mk (lastSeg dp) ("person") (lastSeg pp) dp))
  let vehicles := personPaths.flatMap (fun pp =>
    ((list_objects_v2 pageSize keys (pp ++ "vehicle/")).commonPrefixes).map
      (fun vp => OwnedEntity.mk (lastSeg vp) ("person") (lastSeg pp) vp))
  let compPaths := (list_objects_v2 pageSize keys (base ++ "company/")).commonPrefixes
  let companies := compPaths.map (fun cp => Entity.mk (lastSeg cp) cp)
  let domains := compPaths.flatMap (fun cp =>
    ((list_objects_v2 pageSize keys (cp ++ "domain/")).commonPrefixes).map
      (fun dp => OwnedEntity.mk (lastSeg dp) ("company") (lastSeg cp) dp))
  ⟨people, companies, devices, vehicles, domains⟩

/-- A person or company dict of the discovery output. -/
def entityJ (e : Entity) : JVal :=
  JVal.jobj [("name", JVal.jstr e.name), ("path", JVal.jstr e.path)]

/-- A device, vehicle or domain dict of the discovery output. -/
def ownedJ (o : OwnedEntity) : JVal :=
  JVal.jobj [("name", JVal.jstr o.name), ("owner_type", JVal.jstr o.ownerType),
             ("owner_name", JVal.jstr o.ownerName), ("path", JVal.jstr o.path)]

/-- The profiles summary dict assembled by api_v201._discover_profiles. -/
def profilesSummaryJ (d : Discovered) : JVal :=
  JVal.jobj [("persons", JVal.jarr (d.people.map entityJ)),
             ("companies", JVal.jarr (d.companies.map entityJ))]

/-- The relationships snapshot assembled by api_v201._discover_profiles. -/
def relationshipsJ (d : Discovered) (nowIso : String) : JVal :=
  JVal.jobj [("people", JVal.jarr (d.people.map entityJ)),
             ("companies", JVal.jarr (d.companies.map entityJ)),
             ("devices", JVal.jarr (d.devices.map ownedJ)),
             ("vehicles", JVal.jarr (d.vehicles.map ownedJ)),
             ("domains", JVal.jarr (d.domains.map ownedJ)),
             ("generated_at", JVal.jstr nowIso)]

/-- An api_v201-module write: s3.put_object with no tagging and no encryption
argument. -/
def apiPut (key : String) (body : WBody) (ct : Option String) : WriteOp :=
  ⟨key, body, ct, none, none⟩

/-- api_v201._ensure_folder. -/
def api_ensure_folder (keep : Bool) (p : String) : List WriteOp :=
  let p' := if pyEndsWithSlash p then p else p ++ "/"
  [apiPut p' WBody.empty none]
    ++ (if keep then [apiPut (p' ++ ".keep") WBody.empty none] else [])

/-- api_v201._put_text. -/
def api_put_text (key text ct : String) : WriteOp :=
  apiPut key (WBody.text text) (some ct)

/-- api_v201._put_json. -/
def api_put_json (key : String) (obj : JVal) : WriteOp :=
  apiPut key (WBody.json obj) (some ("application/json"))

/-- The nine top-level folder names of api_v201._ensure_top, in loop order. -/
def topNames : List String :=
  ["_meta/", "uploads/", "intake/", "profiles/", "applications/", "exports/",
   "shared/", "worklog/", "archive/"]

/-- api_v201._ensure_top: ensure the nine top-level folders and rewrite the
fixed profiles.md heading. -/
def _ensure_top (keep : Bool) (acid_display : String) : List WriteOp :=
  (topNames.flatMap (fun n => api_ensure_folder keep (_base acid_display ++ n)))
    ++ [api_put_text (_base acid_display ++ "profiles/profiles.md") ("# Profiles\n") ("text/markdown")]

/-- The account document built by api_v201._refresh_meta: note the acid field
only strips the display prefix literal from its argument. -/
def refreshAccountJson (bucket : String) (acid : String) (org name : Option String)
    (nowIso : String) (summary : JVal) : JVal :=
  let acid_display := api_fmt_acid_display acid
  let base := _base acid_display
  JVal.jobj [
    ("acid", JVal.jstr ⟨stripAcidAll acid.data⟩),
    ("acid_display", JVal.jstr acid_display),
    ("org_id", optJ org),
    ("name", optJ name),
    ("created_at", JVal.jstr nowIso),
    ("layout", JVal.jstr ("classic")),
    ("links", JVal.jobj [
      ("uploads", JVal.jstr ("s3://" ++ bucket ++ "/" ++ base ++ "uploads/")),
      ("profiles", JVal.jstr ("s3://" ++ bucket ++ "/" ++ base ++ "profiles/")),
      ("applications", JVal.jstr ("s3://" ++ bucket ++ "/" ++ base ++ "applications/")),
      ("exports", JVal.jstr ("s3://" ++ bucket ++ "/" ++ base ++ "exports/")),
      ("shared", JVal.jstr ("s3://" ++ bucket ++ "/" ++ base ++ "shared/")),
      ("worklog", JVal.jstr ("s3://" ++ bucket ++ "/" ++ base ++ "worklog/")),
      ("archive", JVal.jstr ("s3://" ++ bucket ++ "/" ++ base ++ "archive/")),
      ("_meta", JVal.jstr ("s3://" ++ bucket ++ "/" ++ base ++ "_meta/"))]),
    ("profiles", summary)]

/-- api_v201._refresh_meta: discover, then write the two metadata documents;
returns the writes with both documents. -/
def _refresh_meta (bucket : String) (pageSize : Nat) (keys : List String)
    (nowIso : String) (acid : String) (org name : Option String) :
    List WriteOp × JVal × JVal :=
  let acid_display := api_fmt_acid_display acid
  let meta := _base acid_display ++ "_meta/"
  let d := _discover_profiles pageSize keys acid_display
  let account := refreshAccountJson bucket acid org name nowIso (profilesSummaryJ d)
  let rel := relationshipsJ d nowIso
  ([api_put_json (meta ++ "account.json") account,
    api_put_json (meta ++ "relationships.json") rel],
   account, rel)

/-- The write trace of one meta_refresh endpoint call: the endpoint first
re-ensures the top-level tree, then refreshes metadata, passing the display
form of the acid into the refresh. -/
def metaRefreshTrace (bucket : String) (keep : Bool) (pageSize : Nat)
    (keys : List String) (nowIso : String) (acid : String) (org name : Option String) :
    List WriteOp :=
  _ensure_top keep (api_fmt_acid_display acid)
    ++ (_refresh_meta bucket pageSize keys nowIso (api_fmt_acid_display acid) org name).1

/-- The api schema of a person payload. -/
structure PersonReqP where
  name : String
  notes : Option String
  devices : List String
  vehicles : List String

/-- The api schema of a company payload. -/
structure CompanyReqP where
  name : String
  notes : Option String
  domains : List String

/-- The write trace of one add_person endpoint call. -/
def addPersonTrace (bucket : String) (keep : Bool) (pageSize : Nat)
    (keys : List String) (nowIso : String) (acid : String) (p : PersonReqP)
    (org name : Option String) : List WriteOp :=
  let acid_display := api_fmt_acid_display acid
  let pname := if pyStrip p.name = "" then "Person" else pyStrip p.name
  let person_base := _profiles_base acid_display ++ "person/" ++ pname ++ "/"
  _ensure_top keep acid_display
    ++ api_ensure_folder keep person_base
    ++ [api_put_text (person_base ++ "notes.md") (pyOrStr p.notes ("")) ("text/markdown")]
    ++ api_ensure_folder keep (person_base ++ "documents/")
    ++ api_ensure_folder keep (person_base ++ "device/")
    ++ api_ensure_folder keep (person_base ++ "vehicle/")
    ++ p.devices.flatMap (fun d =>
         api_ensure_folder keep (person_base ++ "device/" ++ d ++ "/")
           ++ [api_put_text (person_base ++ "device/" ++ d ++ "/" ++ "notes.md") ("") ("text/markdown")])
    ++ p.vehicles.flatMap (fun v =>
         api_ensure_folder keep (person_base ++ "vehicle/" ++ v ++ "/")
           ++ [api_put_text (person_base ++ "vehicle/" ++ v ++ "/" ++ "notes.md") ("") ("text/markdown")])
    ++ (_refresh_meta bucket pageSize keys nowIso acid_display org name).1

/-- The write trace of one add_company endpoint call. -/
def addCompanyTrace (bucket : String) (keep : Bool) (pageSize : Nat)
    (keys : List String) (nowIso : String) (acid : String) (c : CompanyReqP)
    (org name : Option String) : List WriteOp :=
  let acid_display := api_fmt_acid_display acid
  let cname := if pyStrip c.name = "" then "Company" else pyStrip c.name
  let company_base := _profiles_base acid_display ++ "company/" ++ cname ++ "/"
  _ensure_top keep acid_display
    ++ api_ensure_folder keep company_base
    ++ [api_put_text (company_base ++ "notes.md") (pyOrStr c.notes ("")) ("text/markdown")]
    ++ api_ensure_folder keep (company_base ++ "legal/")
    ++ api_ensure_folder keep (company_base ++ "financials/")
    ++ api_ensure_folder keep (company_base ++ "domain/")
    ++ c.domains.flatMap (fun dom =>
         api_ensure_folder keep (company_base ++ "domain/" ++ dom ++ "/")
           ++ [api_put_text (company_base ++ "domain/" ++ dom ++ "/" ++ "notes.md") ("") ("text/markdown"),
               api_put_text (company_base ++ "domain/" ++ dom ++ "/" ++ "dns-records.txt") ("") ("text/plain")])
    ++ (_refresh_meta bucket pageSize keys nowIso acid_display org name).1

/-- The shared-secret check: the request is rejected exactly when a secret is
configured (Python truthiness) and the presented header value differs. -/
def _auth_or_401 (secret presented : Option String) : Bool :=
  pyTruthy secret && presented != secret

/-- main.provision_account_endpoint: reject unauthorized requests before any
object-store operation; otherwise run the provisioning and return its result.
An error result carries no writes: the store is untouched. -/
def provision_account_endpoint (cfg : Cfg) (now : Int) (secret presented : Option String)
    (acid : String) (org name : Option String)
    (persons : List PersonP) (companies : List CompanyP) :
    Except Nat (List WriteOp × String) :=
  if _auth_or_401 secret presented then Except.error 401
  else Except.ok (provision_account cfg now acid org name persons companies)

/-- api_v201.meta_refresh endpoint with its secret guard. -/
def meta_refresh_endpoint (bucket : String) (keep : Bool) (pageSize : Nat)
    (keys : List String) (nowIso : String) (secret presented : Option String)
    (acid : String) (org name : Option String) : Except Nat (List WriteOp) :=
  if _auth_or_401 secret presented then Except.error 401
  else Except.ok (metaRefreshTrace bucket keep pageSize keys nowIso acid org name)

/-- api_v201.add_person endpoint with its secret guard. -/
def add_person_endpoint (bucket : String) (keep : Bool) (pageSize : Nat)
    (keys : List String) (nowIso : String) (secret presented : Option String)
    (acid : String) (p : PersonReqP) (org name : Option String) : Except Nat (List WriteOp) :=
  if _auth_or_401 secret presented then Except.error 401
  else Except.ok (addPersonTrace bucket keep pageSize keys nowIso acid p org name)

/-- api_v201.add_company endpoint with its secret guard. -/
def add_company_endpoint (bucket : String) (keep : Bool) (pageSize : Nat)
    (keys : List String) (nowIso : String) (secret presented : Option String)
    (acid : String) (c : CompanyReqP) (org name : Option String) : Except Nat (List WriteOp) :=
  if _auth_or_401 secret presented then Except.error 401
  else Except.ok (addCompanyTrace bucket keep pageSize keys nowIso acid c org name)

/-- api_v201.get_upload_url endpoint with its secret guard: the accepted path
is a deliberate stub issuing no writes. -/
def get_upload_url_endpoint (secret presented : Option String)
    (_acid _upath : String) : Except Nat (List WriteOp) :=
  if _auth_or_401 secret presented then Except.error 401
  else Except.ok []

/-- Whether an endpoint result is a success. -/
def isOkE {α : Type} : Except Nat α → Bool
  | Except.ok _ => true
  | Except.error _ => false

/-- The string value of an object field, when present. -/
def jStrField (k : String) (v : JVal) : Option String :=
  match jLookup k v with
  | some (JVal.jstr s) => some s
  | _ => none

/-- The complete set of keys a meta_refresh call may write: the nine section
markers and their .keep companions under the account base, the fixed
profiles.md heading, and the two metadata documents (whose base comes from
formatting the already-formatted acid a second time, as the code does). -/
def metaRefreshKeySet (base metaBase : String) : List String :=
  (topNames.map (fun n => base ++ n))
    ++ (topNames.map (fun n => (base ++ n) ++ ".keep"))
    ++ [base ++ "profiles/profiles.md",
        (metaBase ++ "_meta/") ++ "account.json",
        (metaBase ++ "_meta/") ++ "relationships.json"]

/-- The write trace of the spec scenario: provision the raw acid with an org,
no name, and no persons or companies. -/
def cexTrace : List WriteOp :=
  provisionTrace defaultCfg 0 ("abc123XYZ") (some ("org1")) none [] []

/-- Every write in a list carries the given tag and encryption setting. -/
def awsTagged (t : String) (s : SSEMode) (l : List WriteOp) : Prop :=
  ∀ w ∈ l, w.tagging = some t ∧ w.sse = some s

/-- Every write in a list carries neither tagging nor encryption. -/
def apiUntagged (l : List WriteOp) : Prop :=
  ∀ w ∈ l, w.tagging = none ∧ w.sse = none

example : fmt_acid_display ("abc123XYZ") = "acid-abc-12-3XYZ" := by decide
example : to_raw_acid ("acid-abc-12-3XYZ") = "abc123XYZ" := by decide
example : api_fmt_acid_display ("x") = "acid-x" := by decide
example : sanitize_name ("A/B") = "A-B" := by decide
example : lastSeg ("a/acid-x/profiles/person/Alice/") = "Alice" := by decide

/-- The auth check rejects whenever a nonempty secret is configured and the
presented header differs from it. -/
theorem auth_check_fires (s : String) (hs : s ≠ "") (presented : Option String)
    (hp : presented ≠ some s) : _auth_or_401 (some s) presented = true := by
  simp [_auth_or_401, pyTruthy, hs, hp, bne_iff_ne]

/-- The auth check never fires when no secret is configured or the configured
secret is the empty string. -/
theorem auth_check_skipped (secret : Option String)
    (h : secret = none ∨ secret = some "") (presented : Option String) :
    _auth_or_401 secret presented = false := by
  rcases h with rfl | rfl <;> simp [_auth_or_401, pyTruthy]

/-- C9: with a nonempty provisioner secret configured and a mismatching
presented secret, every secret-guarded entrypoint returns the 401 rejection
and issues no object-store operation (an error result carries no writes). -/
theorem auth_mismatch_rejected_before_writes
    (s : String) (hs : s ≠ "") (presented : Option String) (hp : presented ≠ some s)
    (cfg : Cfg) (now : Int) (bucket : String) (keep : Bool) (pageSize : Nat)
    (keys : List String) (nowIso acid : String) (org name : Option String)
    (persons : List PersonP) (companies : List CompanyP)
    (p : PersonReqP) (c : CompanyReqP) (upath : String) :
    provision_account_endpoint cfg now (some s) presented acid org name persons companies = Except.error 401
    ∧ meta_refresh_endpoint bucket keep pageSize keys nowIso (some s) presented acid org name = Except.error 401
    ∧ add_person_endpoint bucket keep pageSize keys nowIso (some s) presented acid p org name = Except.error 401
    ∧ add_company_endpoint bucket keep pageSize keys nowIso (some s) presented acid c org name = Except.error 401
    ∧ get_upload_url_endpoint (some s) presented acid upath = Except.error 401 := by
  have hc := auth_check_fires s hs presented hp
  refine ⟨?_, ?_, ?_, ?_, ?_⟩ <;>
    simp [provision_account_endpoint, meta_refresh_endpoint, add_person_endpoint,
          add_company_endpoint, get_upload_url_endpoint, hc]

/-- Witness for C9 at a concrete mismatching request. -/
theorem auth_mismatch_rejected_before_writes_witness :
    provision_account_endpoint defaultCfg 0 (some ("supersecret")) (some ("wrong"))
        ("abc123XYZ") none none [] [] = Except.error 401
    ∧ meta_refresh_endpoint ("gofinfi-portal") true 1000 [] ("2025-01-01T00:00:00Z")
        (some ("supersecret")) (some ("wrong")) ("abc123XYZ") none none = Except.error 401
    ∧ add_person_endpoint ("gofinfi-portal") true 1000 [] ("2025-01-01T00:00:00Z")
        (some ("supersecret")) (some ("wrong")) ("abc123XYZ") ⟨"A", none, [], []⟩ none none = Except.error 401
    ∧ add_company_endpoint ("gofinfi-portal") true 1000 [] ("2025-01-01T00:00:00Z")
        (some ("supersecret")) (some ("wrong")) ("abc123XYZ") ⟨"B", none, []⟩ none none = Except.error 401
    ∧ get_upload_url_endpoint (some ("supersecret")) (some ("wrong")) ("abc123XYZ") ("p/x") = Except.error 401 :=
  auth_mismatch_rejected_before_writes ("supersecret") (by decide) (some ("wrong")) (by decide)
    defaultCfg 0 ("gofinfi-portal") true 1000 [] ("2025-01-01T00:00:00Z") ("abc123XYZ")
    none none [] [] ⟨"A", none, [], []⟩ ⟨"B", none, []⟩ ("p/x")

/-- C10: when no provisioner secret is configured (unset or empty), the
shared-secret check is skipped at every entrypoint: any request is accepted
and processed whatever the presented header holds. -/
theorem auth_skipped_when_secret_unset
    (secret : Option String) (h : secret = none ∨ secret = some "")
    (presented : Option String)
    (cfg : Cfg) (now : Int) (bucket : String) (keep : Bool) (pageSize : Nat)
    (keys : List String) (nowIso acid : String) (org name : Option String)
    (persons : List PersonP) (companies : List CompanyP)
    (p : PersonReqP) (c : CompanyReqP) (upath : String) :
    isOkE (provision_account_endpoint cfg now secret presented acid org name persons companies) = true
    ∧ isOkE (meta_refresh_endpoint bucket keep pageSize keys nowIso secret presented acid org name) = true
    ∧ isOkE (add_person_endpoint bucket keep pageSize keys nowIso secret presented acid p org name) = true
    ∧ isOkE (add_company_endpoint bucket keep pageSize keys nowIso secret presented acid c org name) = true
    ∧ isOkE (get_upload_url_endpoint secret presented acid upath) = true := by
  have hc := auth_check_skipped secret h presented
  refine ⟨?_, ?_, ?_, ?_, ?_⟩ <;>
    simp [provision_account_endpoint, meta_refresh_endpoint, add_person_endpoint,
          add_company_endpoint, get_upload_url_endpoint, hc, isOkE]

/-- Witness for C10 at a concrete request carrying an arbitrary header while
no secret is configured. -/
theorem auth_skipped_when_secret_unset_witness :
    isOkE (provision_account_endpoint defaultCfg 0 none (some ("anything"))
        ("abc123XYZ") none none [] []) = true
    ∧ isOkE (meta_refresh_endpoint ("gofinfi-portal") true 1000 [] ("2025-01-01T00:00:00Z")
        none (some ("anything")) ("abc123XYZ") none none) = true
    ∧ isOkE (add_person_endpoint ("gofinfi-portal") true 1000 [] ("2025-01-01T00:00:00Z")
        none (some ("anything")) ("abc123XYZ") ⟨"A", none, [], []⟩ none none) = true
    ∧ isOkE (add_company_endpoint ("gofinfi-portal") true 1000 [] ("2025-01-01T00:00:00Z")
        none (some ("anything")) ("abc123XYZ") ⟨"B", none, []⟩ none none) = true
    ∧ isOkE (get_upload_url_endpoint none (some ("anything")) ("abc123XYZ") ("p/x")) = true :=
  auth_skipped_when_secret_unset none (Or.inl rfl) (some ("anything"))
    defaultCfg 0 ("gofinfi-portal") true 1000 [] ("2025-01-01T00:00:00Z") ("abc123XYZ")
    none none [] [] ⟨"A", none, [], []⟩ ⟨"B", none, []⟩ ("p/x")

/-- A base62 character is never a dash. -/
theorem base62_ne_dash {c : Char} (h : isBase62 c = true) : c ≠ '-' := by
  intro heq
  subst heq
  exact absurd h (by decide)

/-- A list of length nine is a nine-element literal. -/
theorem data_of_length_nine {l : List Char} (h : l.length = 9) :
    ∃ a b c d e f g i j, l = [a, b, c, d, e, f, g, i, j] := by
  rcases l with _ | ⟨a, l⟩
  · simp at h
  rcases l with _ | ⟨b, l⟩
  · simp at h
  rcases l with _ | ⟨c, l⟩
  · simp at h
  rcases l with _ | ⟨d, l⟩
  · simp at h
  rcases l with _ | ⟨e, l⟩
  · simp at h
  rcases l with _ | ⟨f, l⟩
  · simp at h
  rcases l with _ | ⟨g, l⟩
  · simp at h
  rcases l with _ | ⟨i, l⟩
  · simp at h
  rcases l with _ | ⟨j, l⟩
  · simp at h
  rcases l with _ | ⟨k, l⟩
  · exact ⟨a, b, c, d, e, f, g, i, j, rfl⟩
  · exfalso
    simp at h

/-- The display prefix literal is not a prefix of a five-character window
whose fifth character is not a dash. -/
theorem not_pref_of_fifth {c1 c2 c3 c4 c5 : Char} {t : List Char} (h : c5 ≠ '-') :
    acidDash.isPrefixOf (c1 :: c2 :: c3 :: c4 :: c5 :: t) = false := by
  simp [acidDash, List.isPrefixOf, h]
  intro _ _ _ _ heq
  exact h heq.symm

/-- The inner eleven characters of a freshly formatted display string are
untouched by the prefix-removal scan: every five-character window of them
holds a dash where the pattern holds a letter. -/
theorem stripAcidAll_tail (c1 c2 c3 c4 c5 c6 c7 c8 c9 : Char) :
    stripAcidAll [c1, c2, c3, '-', c4, c5, '-', c6, c7, c8, c9]
      = [c1, c2, c3, '-', c4, c5, '-', c6, c7, c8, c9] := by
  simp [stripAcidAll]

/-- Removing the display prefix literal from a freshly formatted display
string leaves exactly the inner dashed characters. -/
theorem stripAcidAll_display (c1 c2 c3 c4 c5 c6 c7 c8 c9 : Char) :
    stripAcidAll ('a' :: 'c' :: 'i' :: 'd' :: '-' :: [c1, c2, c3, '-', c4, c5, '-', c6, c7, c8, c9])
      = [c1, c2, c3, '-', c4, c5, '-', c6, c7, c8, c9] := by
  rw [show stripAcidAll ('a' :: 'c' :: 'i' :: 'd' :: '-' :: [c1, c2, c3, '-', c4, c5, '-', c6, c7, c8, c9])
        = stripAcidAll [c1, c2, c3, '-', c4, c5, '-', c6, c7, c8, c9] from by simp [stripAcidAll]]
  exact stripAcidAll_tail c1 c2 c3 c4 c5 c6 c7 c8 c9

/-- Removing dashes from the inner dashed characters recovers the raw nine. -/
theorem dropDashes_tail {c1 c2 c3 c4 c5 c6 c7 c8 c9 : Char}
    (h1 : c1 ≠ '-') (h2 : c2 ≠ '-') (h3 : c3 ≠ '-') (h4 : c4 ≠ '-') (h5 : c5 ≠ '-')
    (h6 : c6 ≠ '-') (h7 : c7 ≠ '-') (h8 : c8 ≠ '-') (h9 : c9 ≠ '-') :
    dropDashes [c1, c2, c3, '-', c4, c5, '-', c6, c7, c8, c9]
      = [c1, c2, c3, c4, c5, c6, c7, c8, c9] := by
  have b1 : (c1 != '-') = true := bne_iff_ne.mpr h1
  have b2 : (c2 != '-') = true := bne_iff_ne.mpr h2
  have b3 : (c3 != '-') = true := bne_iff_ne.mpr h3
  have b4 : (c4 != '-') = true := bne_iff_ne.mpr h4
  have b5 : (c5 != '-') = true := bne_iff_ne.mpr h5
  have b6 : (c6 != '-') = true := bne_iff_ne.mpr h6
  have b7 : (c7 != '-') = true := bne_iff_ne.mpr h7
  have b8 : (c8 != '-') = true := bne_iff_ne.mpr h8
  have b9 : (c9 != '-') = true := bne_iff_ne.mpr h9
  simp [dropDashes, List.filter, b1, b2, b3, b4, b5, b6, b7, b8, b9]

/-- The display of a raw nine-character base62 string: the prefix literal and
the three dashed groups. -/
theorem fmt_display_shape (r : String) (hlen : r.data.length = 9)
    (hb : ∀ c ∈ r.data, isBase62 c = true) :
    to_raw_acid (fmt_acid_display r) = r
    ∧ fmt_acid_display (fmt_acid_display r) = fmt_acid_display r := by
  obtain ⟨c1, c2, c3, c4, c5, c6, c7, c8, c9, hdata⟩ := data_of_length_nine hlen
  rw [hdata] at hb
  have hb1 := hb c1 (by simp)
  have hb2 := hb c2 (by simp)
  have hb3 := hb c3 (by simp)
  have hb4 := hb c4 (by simp)
  have hb5 := hb c5 (by simp)
  have hb6 := hb c6 (by simp)
  have hb7 := hb c7 (by simp)
  have hb8 := hb c8 (by simp)
  have hb9 := hb c9 (by simp)
  have hp : acidDash.isPrefixOf [c1, c2, c3, c4, c5, c6, c7, c8, c9] = false :=
    not_pref_of_fifth (base62_ne_dash hb5)
  have hfmt : fmt_acid_display r
      = ⟨'a' :: 'c' :: 'i' :: 'd' :: '-' :: [c1, c2, c3, '-', c4, c5, '-', c6, c7, c8, c9]⟩ := by
    simp [fmt_acid_display, hdata, hp, acidDash]
    intro _ _ _ _ h5eq
    exact absurd h5eq.symm (base62_ne_dash hb5)
  have hp2 : acidDash.isPrefixOf
      ('a' :: 'c' :: 'i' :: 'd' :: '-' :: [c1, c2, c3, '-', c4, c5, '-', c6, c7, c8, c9]) = true := by
    simp [acidDash, List.isPrefixOf]
  refine ⟨?_, ?_⟩
  · rw [hfmt]
    apply String.ext
    simp [to_raw_acid, hp2, stripAcidAll_display, hdata,
          dropDashes_tail (base62_ne_dash hb1) (base62_ne_dash hb2) (base62_ne_dash hb3)
            (base62_ne_dash hb4) (base62_ne_dash hb5) (base62_ne_dash hb6)
            (base62_ne_dash hb7) (base62_ne_dash hb8) (base62_ne_dash hb9)]
  · rw [hfmt]
    simp [fmt_acid_display, hp2]

/-- A string already carrying the display prefix passes through the aws
formatter unchanged. -/
theorem fmt_display_prefix_id (d : String) (hpf : acidDash.isPrefixOf d.data = true) :
    fmt_acid_display d = d := by
  have hne : d.data ≠ [] := by
    intro h
    rw [h] at hpf
    simp [acidDash, List.isPrefixOf] at hpf
  simp [fmt_acid_display, hne, hpf]

/-- C5: for every raw nine-character base62 string, converting the formatted
display back yields the raw string and formatting is idempotent; and every
string already carrying the display prefix is returned unchanged. -/
theorem acid_roundtrip :
    (∀ r : String, r.data.length = 9 → (∀ c ∈ r.data, isBase62 c = true) →
        to_raw_acid (fmt_acid_display r) = r
        ∧ fmt_acid_display (fmt_acid_display r) = fmt_acid_display r)
    ∧ (∀ d : String, acidDash.isPrefixOf d.data = true → fmt_acid_display d = d) :=
  ⟨fun r hlen hb => fmt_display_shape r hlen hb, fun d hpf => fmt_display_prefix_id d hpf⟩

/-- Witness for C5 at a concrete raw acid and a concrete display string. -/
theorem acid_roundtrip_witness :
    (to_raw_acid (fmt_acid_display ("abc123XYZ")) = "abc123XYZ"
      ∧ fmt_acid_display (fmt_acid_display ("abc123XYZ")) = fmt_acid_display ("abc123XYZ"))
    ∧ fmt_acid_display ("acid-zz") = "acid-zz" :=
  ⟨acid_roundtrip.1 ("abc123XYZ") (by decide) (by decide),
   acid_roundtrip.2 ("acid-zz") (by decide)⟩

/-- C7 counterexample: the short input `x` carries no display prefix and has
length below nine, yet the api_v201 formatter does not return it unchanged —
it prepends the display prefix. -/
theorem api_fmt_short_not_unchanged_cex :
    ("x" : String).data.length < 9
    ∧ acidDash.isPrefixOf ("x" : String).data = false
    ∧ api_fmt_acid_display ("x") = "acid-x"
    ∧ ("acid-x" : String) ≠ "x" := by decide

/-- C7 amended: on inputs without the display prefix and shorter than nine
characters, the aws formatter returns the input unchanged, while the api_v201
formatter returns the display prefix prepended to the stripped input. -/
theorem fmt_display_short_inputs :
    (∀ s : String, acidDash.isPrefixOf s.data = false → s.data.length < 9 →
        fmt_acid_display s = s)
    ∧ (∀ s : String, acidDash.isPrefixOf (pyStrip s).data = false →
        (pyStrip s).data.length < 9 →
        api_fmt_acid_display s = ⟨acidDash ++ (pyStrip s).data⟩) := by
  constructor
  · intro s h1 h2
    by_cases he : s.data = []
    · simp [fmt_acid_display, he]
    · have h9 : ¬ (9 ≤ s.data.length) := by omega
      simp [fmt_acid_display, he, h1, h9]
      intro hcon
      exact absurd hcon h9
  · intro s h1 h2
    have h9 : ¬ (9 ≤ (pyStrip s).data.length) := by omega
    simp [api_fmt_acid_display, h1, h9]
    intro hcon
    exact absurd hcon h9

/-- Witness for C7 amended at a concrete two-character input. -/
theorem fmt_display_short_inputs_witness :
    fmt_acid_display ("ab") = "ab"
    ∧ api_fmt_acid_display ("ab") = ⟨acidDash ++ (pyStrip ("ab")).data⟩ :=
  ⟨fmt_display_short_inputs.1 ("ab") (by decide) (by decide),
   fmt_display_short_inputs.2 ("ab") (by decide) (by decide)⟩

/-- C1 evaluation at the failing input: a store holding two person prefixes,
listed by a service whose page holds one result.  The full delimiter listing
of the store shows both persons and the returned page is flagged truncated,
yet the discovery routine, which never follows the truncation, reports only
the first person — the second is omitted from summary and snapshot. -/
theorem discover_truncation_omits_person :
    commonPrefixes
        ["a/acid-abc-12-3XYZ/profiles/person/Alice/", "a/acid-abc-12-3XYZ/profiles/person/Bob/"]
        ("a/acid-abc-12-3XYZ/profiles/person/")
      = ["a/acid-abc-12-3XYZ/profiles/person/Alice/", "a/acid-abc-12-3XYZ/profiles/person/Bob/"]
    ∧ (list_objects_v2 1
        ["a/acid-abc-12-3XYZ/profiles/person/Alice/", "a/acid-abc-12-3XYZ/profiles/person/Bob/"]
        ("a/acid-abc-12-3XYZ/profiles/person/")).isTruncated = true
    ∧ ((_discover_profiles 1
        ["a/acid-abc-12-3XYZ/profiles/person/Alice/", "a/acid-abc-12-3XYZ/profiles/person/Bob/"]
        ("acid-abc-12-3XYZ")).people.map Entity.name) = ["Alice"] := by decide

/-- C8 counterexample: a metadata refresh on the well-formed raw acid
`abc123XYZ` publishes an acid field that still contains dashes. -/
theorem refresh_acid_field_keeps_dashes_cex :
    jStrField ("acid")
        (_refresh_meta ("gofinfi-portal") 1000 [] ("t0")
          (api_fmt_acid_display ("abc123XYZ")) none none).2.1
      = some ("abc-12-3XYZ")
    ∧ ("abc-12-3XYZ" : String) ≠ ("abc123XYZ" : String)
    ∧ ('-' ∈ ("abc-12-3XYZ" : String).data) := by decide

/-- A base62 character is not whitespace. -/
theorem base62_not_ws {c : Char} (h : isBase62 c = true) : c.isWhitespace = false := by
  by_cases h1 : c = ' '
  · subst h1
    exact absurd h (by decide)
  by_cases h2 : c = '\t'
  · subst h2
    exact absurd h (by decide)
  by_cases h3 : c = '\r'
  · subst h3
    exact absurd h (by decide)
  by_cases h4 : c = '\n'
  · subst h4
    exact absurd h (by decide)
  simp [Char.isWhitespace, h1, h2, h3, h4]

/-- Dropping leading whitespace from an all-base62 list changes nothing. -/
theorem dropWhile_ws_id {l : List Char} (h : ∀ c ∈ l, isBase62 c = true) :
    l.dropWhile Char.isWhitespace = l := by
  cases l with
  | nil => rfl
  | cons a t =>
    have ha : Char.isWhitespace a = false := base62_not_ws (h a (by simp))
    simp [List.dropWhile_cons, ha]

/-- Stripping whitespace from an all-base62 string changes nothing. -/
theorem pyStrip_of_base62 {r : String} (hb : ∀ c ∈ r.data, isBase62 c = true) :
    pyStrip r = r := by
  have h1 : r.data.dropWhile Char.isWhitespace = r.data := dropWhile_ws_id hb
  have hbrev : ∀ c ∈ r.data.reverse, isBase62 c = true := by
    intro c hc
    exact hb c (List.mem_reverse.mp hc)
  have h2 : r.data.reverse.dropWhile Char.isWhitespace = r.data.reverse :=
    dropWhile_ws_id hbrev
  apply String.ext
  simp [pyStrip, h1, h2]

/-- The display of a raw nine-character base62 string, with its characters. -/
theorem fmt_display_literal (r : String) (hlen : r.data.length = 9)
    (hb : ∀ c ∈ r.data, isBase62 c = true) :
    ∃ a b c d e f g i j, r.data = [a, b, c, d, e, f, g, i, j]
      ∧ fmt_acid_display r
          = ⟨'a' :: 'c' :: 'i' :: 'd' :: '-' :: [a, b, c, '-', d, e, '-', f, g, i, j]⟩ := by
  obtain ⟨a, b, c, d, e, f, g, i, j, hdata⟩ := data_of_length_nine hlen
  rw [hdata] at hb
  have hb5 := hb e (by simp)
  have hp : acidDash.isPrefixOf [a, b, c, d, e, f, g, i, j] = false :=
    not_pref_of_fifth (base62_ne_dash hb5)
  refine ⟨a, b, c, d, e, f, g, i, j, hdata, ?_⟩
  simp [fmt_acid_display, hdata, hp, acidDash]
  intro _ _ _ _ h5eq
  exact absurd h5eq.symm (base62_ne_dash hb5)

/-- On a raw nine-character base62 string the api_v201 formatter and the aws
formatter agree. -/
theorem api_fmt_eq_fmt (r : String) (hlen : r.data.length = 9)
    (hb : ∀ c ∈ r.data, isBase62 c = true) :
    api_fmt_acid_display r = fmt_acid_display r := by
  have hstrip : pyStrip r = r := pyStrip_of_base62 hb
  obtain ⟨a, b, c, d, e, f, g, i, j, hdata⟩ := data_of_length_nine hlen
  have hb5 : isBase62 e = true := by
    apply hb
    rw [hdata]
    simp
  have hp : acidDash.isPrefixOf r.data = false := by
    rw [hdata]
    exact not_pref_of_fifth (base62_ne_dash hb5)
  have h9 : 9 ≤ r.data.length := by rw [hlen]
  have hne : r.data ≠ [] := by
    rw [hdata]
    simp
  simp [api_fmt_acid_display, fmt_acid_display, hstrip, hp, h9, hne]
  rw [if_pos (show 9 ≤ r.length from h9)]
  rw [if_pos (show 9 ≤ r.length from h9)]

/-- C8 amended: on well-formed nine-character base62 input, the provision
path normalizes to the raw form and writes exactly it into the acid field of
account.json (for raw or display input alike), while the metadata-refresh
path writes the display form with only the prefix literal removed, keeping
the dashes, which is never the raw form. -/
theorem acid_field_by_path :
    (∀ r : String, r.data.length = 9 → (∀ c ∈ r.data, isBase62 c = true) →
        ∀ cfg now org name tops,
        (normalize_acid r).1 = r
        ∧ (normalize_acid (fmt_acid_display r)).1 = r
        ∧ jStrField ("acid")
            (provisionAccountJson cfg now (normalize_acid r).1 (normalize_acid r).2 org name tops)
          = some r)
    ∧ (∀ r : String, r.data.length = 9 → (∀ c ∈ r.data, isBase62 c = true) →
        ∀ bucket pageSize keys nowIso org name,
        jStrField ("acid")
            (_refresh_meta bucket pageSize keys nowIso (api_fmt_acid_display r) org name).2.1
          = some ⟨(fmt_acid_display r).data.drop 5⟩
        ∧ (⟨(fmt_acid_display r).data.drop 5⟩ : String) ≠ r) := by
  constructor
  · intro r hlen hb cfg now org name tops
    obtain ⟨a, b, c, d, e, f, g, i, j, hdata⟩ := data_of_length_nine hlen
    have hb5 : isBase62 e = true := by
      apply hb
      rw [hdata]
      simp
    have hp : acidDash.isPrefixOf r.data = false := by
      rw [hdata]
      exact not_pref_of_fifth (base62_ne_dash hb5)
    have hne : r.data ≠ [] := by
      rw [hdata]
      simp
    have hraw : (normalize_acid r).1 = r := by
      simp [normalize_acid, to_raw_acid, hp, hne]
    refine ⟨hraw, ?_, ?_⟩
    · simp only [normalize_acid]
      exact (fmt_display_shape r hlen hb).1
    · rw [hraw]
      simp [jStrField, jLookup, provisionAccountJson]
  · intro r hlen hb bucket pageSize keys nowIso org name
    obtain ⟨a, b, c, d, e, f, g, i, j, hdata, hfmt⟩ := fmt_display_literal r hlen hb
    have hafmt : api_fmt_acid_display r = fmt_acid_display r := api_fmt_eq_fmt r hlen hb
    rw [hafmt, hfmt]
    constructor
    · simp [_refresh_meta, refreshAccountJson, jStrField, jLookup]
      rw [show stripAcidAll ('a' :: 'c' :: 'i' :: 'd' :: '-' :: [a, b, c, '-', d, e, '-', f, g, i, j])
            = [a, b, c, '-', d, e, '-', f, g, i, j] from stripAcidAll_display a b c d e f g i j]
    · intro heq
      have hd := congrArg String.data heq
      rw [hdata] at hd
      simp at hd

/-- Witness for C8 amended at the concrete raw acid. -/
theorem acid_field_by_path_witness :
    ((normalize_acid ("abc123XYZ")).1 = "abc123XYZ"
      ∧ (normalize_acid (fmt_acid_display ("abc123XYZ"))).1 = "abc123XYZ"
      ∧ jStrField ("acid")
          (provisionAccountJson defaultCfg 0 (normalize_acid ("abc123XYZ")).1
            (normalize_acid ("abc123XYZ")).2 none none (_folders_top ("a/acid-abc-12-3XYZ/") false))
        = some ("abc123XYZ"))
    ∧ (jStrField ("acid")
          (_refresh_meta ("gofinfi-portal") 1000 [] ("t0")
            (api_fmt_acid_display ("abc123XYZ")) none none).2.1
        = some ⟨(fmt_acid_display ("abc123XYZ")).data.drop 5⟩
      ∧ (⟨(fmt_acid_display ("abc123XYZ")).data.drop 5⟩ : String) ≠ ("abc123XYZ")) :=
  ⟨acid_field_by_path.1 ("abc123XYZ") (by decide) (by decide) defaultCfg 0 none none
      (_folders_top ("a/acid-abc-12-3XYZ/") false),
   acid_field_by_path.2 ("abc123XYZ") (by decide) (by decide) ("gofinfi-portal") 1000 [] ("t0") none none⟩

/-- String append is associative. -/
theorem str_append_assoc (a b c : String) : (a ++ b) ++ c = a ++ (b ++ c) :=
  String.ext (by simp [String.data_append, List.append_assoc])

/-- String append cancels on the left. -/
theorem str_append_left_cancel {p a b : String} (h : p ++ a = p ++ b) : a = b := by
  have hd := congrArg String.data h
  simp [String.data_append] at hd
  exact String.ext hd

/-- Appending distinct suffixes to the same prefix yields distinct strings. -/
theorem ne_append_left {p a b : String} (h : a ≠ b) : p ++ a ≠ p ++ b :=
  fun hc => h (str_append_left_cancel hc)

/-- A string obtained by appending a nonempty suffix whose last character is
a slash passes the trailing-slash test. -/
theorem endsSlash_append (s t : String) (hne : t.data ≠ [])
    (h : t.data.reverse.headD ' ' = '/') :
    pyEndsWithSlash (s ++ t) = true := by
  have hrev : (s ++ t).data.reverse = t.data.reverse ++ s.data.reverse := by
    simp [String.data_append]
  rcases ht : t.data.reverse with _ | ⟨c, rest⟩
  · exfalso
    apply hne
    simpa using congrArg List.reverse ht
  · rw [ht] at h hrev
    simp at h
    subst h
    simp [pyEndsWithSlash, ht]

/-- The loop body of aws._ensure_folders on a prefix already ending with a
slash. -/
theorem ensureOne_slash (cfg : Cfg) (acid : String) (org : Option String)
    (p : String) (h : pyEndsWithSlash p = true) :
    ensureOne cfg acid org p
      = [put_empty cfg p acid org]
        ++ (if cfg.createKeepFiles then [put_empty cfg (p ++ ".keep") acid org] else []) := by
  simp [ensureOne, h]

/-- api_v201._ensure_folder on a prefix already ending with a slash. -/
theorem api_ensure_folder_slash (keep : Bool) (p : String) (h : pyEndsWithSlash p = true) :
    api_ensure_folder keep p
      = [apiPut p WBody.empty none]
        ++ (if keep then [apiPut (p ++ ".keep") WBody.empty none] else []) := by
  simp [api_ensure_folder, h]

/-- Every write of the default-company branch targets a key under the
Default Company prefix. -/
theorem mem_defaultCompanyWrites (cfg : Cfg) (profiles acid : String) (org : Option String)
    (w : WriteOp) (hw : w ∈ defaultCompanyWrites cfg profiles acid org) :
    ∃ rest : String, w.key = profiles ++ ("company/Default Company/" ++ rest) := by
  have ht1 : pyEndsWithSlash (profiles ++ "company/Default Company/") = true :=
    endsSlash_append _ _ (by decide) (by decide)
  have ht2 : pyEndsWithSlash ((profiles ++ "company/Default Company/") ++ "legal/") = true :=
    endsSlash_append _ _ (by decide) (by decide)
  have ht3 : pyEndsWithSlash ((profiles ++ "company/Default Company/") ++ "financials/") = true :=
    endsSlash_append _ _ (by decide) (by decide)
  by_cases hk : cfg.createKeepFiles
  · simp [defaultCompanyWrites, _ensure_folders, ensureOne, ht1, ht2, ht3, hk] at hw
    rcases hw with rfl | rfl | rfl | rfl | rfl | rfl | rfl
    · exact ⟨"", by simp [put_empty, awsPut, String.append_empty]⟩
    · exact ⟨".keep", by simp [put_empty, awsPut, String.append_assoc]⟩
    · exact ⟨"legal/", by simp [put_empty, awsPut, String.append_assoc]⟩
    · exact ⟨"legal/" ++ ".keep", by simp [put_empty, awsPut, String.append_assoc]⟩
    · exact ⟨"financials/", by simp [put_empty, awsPut, String.append_assoc]⟩
    · exact ⟨"financials/" ++ ".keep", by simp [put_empty, awsPut, String.append_assoc]⟩
    · exact ⟨"notes.md", by simp [put_text, awsPut, String.append_assoc]⟩
  · simp [defaultCompanyWrites, _ensure_folders, ensureOne, ht1, ht2, ht3, hk] at hw
    rcases hw with rfl | rfl | rfl | rfl
    · exact ⟨"", by simp [put_empty, awsPut, String.append_empty]⟩
    · exact ⟨"legal/", by simp [put_empty, awsPut, String.append_assoc]⟩
    · exact ⟨"financials/", by simp [put_empty, awsPut, String.append_assoc]⟩
    · exact ⟨"notes.md", by simp [put_text, awsPut, String.append_assoc]⟩

/-- Every write of the default-person branch targets a key under the Default
Person prefix. -/
theorem mem_defaultPersonWrites (cfg : Cfg) (profiles acid : String) (org : Option String)
    (w : WriteOp) (hw : w ∈ defaultPersonWrites cfg profiles acid org) :
    ∃ rest : String, w.key = profiles ++ ("person/Default Person/" ++ rest) := by
  have hs1 : pyEndsWithSlash (profiles ++ "person/Default Person/") = true :=
    endsSlash_append _ _ (by decide) (by decide)
  have hs2 : pyEndsWithSlash ((profiles ++ "person/Default Person/") ++ "documents/") = true :=
    endsSlash_append _ _ (by decide) (by decide)
  have hs3 : pyEndsWithSlash ((profiles ++ "person/Default Person/") ++ "vehicle/") = true :=
    endsSlash_append _ _ (by decide) (by decide)
  have hs4 : pyEndsWithSlash ((profiles ++ "person/Default Person/") ++ "device/") = true :=
    endsSlash_append _ _ (by decide) (by decide)
  have hs5 : pyEndsWithSlash ((profiles ++ "person/Default Person/") ++ "vehicle/Default Vehicle/") = true :=
    endsSlash_append _ _ (by decide) (by decide)
  have hs6 : pyEndsWithSlash ((profiles ++ "person/Default Person/") ++ "device/Default Device/") = true :=
    endsSlash_append _ _ (by decide) (by decide)
  by_cases hk : cfg.createKeepFiles
  · simp [defaultPersonWrites, _ensure_folders, ensureOne, hs1, hs2, hs3, hs4, hs5, hs6, hk] at hw
    rcases hw with rfl | rfl | rfl | rfl | rfl | rfl | rfl | rfl | rfl | rfl | rfl | rfl | rfl | rfl | rfl
    · exact ⟨"", by simp [put_empty, awsPut, String.append_empty]⟩
    · exact ⟨".keep", by simp [put_empty, awsPut, String.append_assoc]⟩
    · exact ⟨"documents/", by simp [put_empty, awsPut, String.append_assoc]⟩
    · exact ⟨"documents/" ++ ".keep", by simp [put_empty, awsPut, String.append_assoc]⟩
    · exact ⟨"vehicle/", by simp [put_empty, awsPut, String.append_assoc]⟩
    · exact ⟨"vehicle/" ++ ".keep", by simp [put_empty, awsPut, String.append_assoc]⟩
    · exact ⟨"device/", by simp [put_empty, awsPut, String.append_assoc]⟩
    · exact ⟨"device/" ++ ".keep", by simp [put_empty, awsPut, String.append_assoc]⟩
    · exact ⟨"notes.md", by simp [put_text, awsPut, String.append_assoc]⟩
    · exact ⟨"vehicle/Default Vehicle/", by simp [put_empty, awsPut, String.append_assoc]⟩
    · exact ⟨"vehicle/Default Vehicle/" ++ ".keep", by simp [put_empty, awsPut, String.append_assoc]⟩
    · exact ⟨"device/Default Device/", by simp [put_empty, awsPut, String.append_assoc]⟩
    · exact ⟨"device/Default Device/" ++ ".keep", by simp [put_empty, awsPut, String.append_assoc]⟩
    · exact ⟨"vehicle/Default Vehicle/" ++ "notes.md", by simp [put_text, awsPut, String.append_assoc]⟩
    · exact ⟨"device/Default Device/" ++ "notes.md", by simp [put_text, awsPut, String.append_assoc]⟩
  · simp [defaultPersonWrites, _ensure_folders, ensureOne, hs1, hs2, hs3, hs4, hs5, hs6, hk] at hw
    rcases hw with rfl | rfl | rfl | rfl | rfl | rfl | rfl | rfl | rfl
    · exact ⟨"", by simp [put_empty, awsPut, String.append_empty]⟩
    · exact ⟨"documents/", by simp [put_empty, awsPut, String.append_assoc]⟩
    · exact ⟨"vehicle/", by simp [put_empty, awsPut, String.append_assoc]⟩
    · exact ⟨"device/", by simp [put_empty, awsPut, String.append_assoc]⟩
    · exact ⟨"notes.md", by simp [put_text, awsPut, String.append_assoc]⟩
    · exact ⟨"vehicle/Default Vehicle/", by simp [put_empty, awsPut, String.append_assoc]⟩
    · exact ⟨"device/Default Device/", by simp [put_empty, awsPut, String.append_assoc]⟩
    · exact ⟨"vehicle/Default Vehicle/" ++ "notes.md", by simp [put_text, awsPut, String.append_assoc]⟩
    · exact ⟨"device/Default Device/" ++ "notes.md", by simp [put_text, awsPut, String.append_assoc]⟩

/-- A string starting with a fixed block longer than a target never equals
the target. -/
theorem append_fixed_ne {a b : String} (rest : String)
    (hlen : b.data.length < a.data.length) : a ++ rest ≠ b := by
  intro h
  have hd := congrArg String.data h
  simp [String.data_append] at hd
  have hlen2 := congrArg List.length hd
  rw [List.length_append] at hlen2
  have e1 : rest.length = rest.data.length := rfl
  have e2 : b.length = b.data.length := rfl
  omega

/-- Appending anything to a string whose first character differs from the
target's never yields the target. -/
theorem append_head_ne {a b : String} (rest : String) (ha : a.data ≠ [])
    (h : a.data.headD ' ' ≠ b.data.headD ' ') : a ++ rest ≠ b := by
  intro heq
  have hd := congrArg String.data heq
  simp [String.data_append] at hd
  have hheads : a.data.headD ' ' = b.data.headD ' ' := by
    rw [← hd]
    rcases ha' : a.data with _ | ⟨c, t⟩
    · exact absurd ha' ha
    · simp
  exact h hheads

/-- C6: the default person (with a default vehicle and a default device, each
carrying a placeholder notes file) is seeded iff the created persons list is
empty, and the default company (with legal and financials sub-prefixes) is
seeded iff the created companies list is empty; the two conditions are
evaluated independently. -/
theorem seed_defaults_iff (cfg : Cfg) (profiles acid : String) (org : Option String)
    (created : Summary) :
    ((∃ w ∈ _seed_defaults_if_empty cfg profiles created acid org,
        w.key = profiles ++ "person/Default Person/") ↔ created.persons = [])
    ∧ ((∃ w ∈ _seed_defaults_if_empty cfg profiles created acid org,
        w.key = profiles ++ "company/Default Company/") ↔ created.companies = [])
    ∧ (created.persons = [] →
        (put_text cfg ((profiles ++ "person/Default Person/") ++ "vehicle/Default Vehicle/" ++ "notes.md")
            ("# Default Vehicle\n") acid org ("text/markdown"))
          ∈ _seed_defaults_if_empty cfg profiles created acid org
        ∧ (put_text cfg ((profiles ++ "person/Default Person/") ++ "device/Default Device/" ++ "notes.md")
            ("# Default Device\n") acid org ("text/markdown"))
          ∈ _seed_defaults_if_empty cfg profiles created acid org)
    ∧ (created.companies = [] →
        (put_empty cfg ((profiles ++ "company/Default Company/") ++ "legal/") acid org)
          ∈ _seed_defaults_if_empty cfg profiles created acid org
        ∧ (put_empty cfg ((profiles ++ "company/Default Company/") ++ "financials/") acid org)
          ∈ _seed_defaults_if_empty cfg profiles created acid org) := by
  have hs1 : pyEndsWithSlash (profiles ++ "person/Default Person/") = true :=
    endsSlash_append _ _ (by decide) (by decide)
  have hs2 : pyEndsWithSlash ((profiles ++ "person/Default Person/") ++ "documents/") = true :=
    endsSlash_append _ _ (by decide) (by decide)
  have hs3 : pyEndsWithSlash ((profiles ++ "person/Default Person/") ++ "vehicle/") = true :=
    endsSlash_append _ _ (by decide) (by decide)
  have hs4 : pyEndsWithSlash ((profiles ++ "person/Default Person/") ++ "device/") = true :=
    endsSlash_append _ _ (by decide) (by decide)
  have hs5 : pyEndsWithSlash ((profiles ++ "person/Default Person/") ++ "vehicle/Default Vehicle/") = true :=
    endsSlash_append _ _ (by decide) (by decide)
  have hs6 : pyEndsWithSlash ((profiles ++ "person/Default Person/") ++ "device/Default Device/") = true :=
    endsSlash_append _ _ (by decide) (by decide)
  have ht1 : pyEndsWithSlash (profiles ++ "company/Default Company/") = true :=
    endsSlash_append _ _ (by decide) (by decide)
  have ht2 : pyEndsWithSlash ((profiles ++ "company/Default Company/") ++ "legal/") = true :=
    endsSlash_append _ _ (by decide) (by decide)
  have ht3 : pyEndsWithSlash ((profiles ++ "company/Default Company/") ++ "financials/") = true :=
    endsSlash_append _ _ (by decide) (by decide)
  refine ⟨⟨?_, ?_⟩, ⟨?_, ?_⟩, ?_, ?_⟩
  · rintro ⟨w, hw, hkey⟩
    by_contra hpne
    have hw' : w ∈ (if created.companies = [] then defaultCompanyWrites cfg profiles acid org else []) := by
      simpa [_seed_defaults_if_empty, hpne] using hw
    by_cases hc : created.companies = []
    · rw [if_pos hc] at hw'
      obtain ⟨rest, hrest⟩ := mem_defaultCompanyWrites cfg profiles acid org w hw'
      rw [hrest] at hkey
      have hcut := str_append_left_cancel hkey
      exact append_head_ne rest (by decide) (by decide) hcut
    · rw [if_neg hc] at hw'
      simp at hw'
  · intro hpe
    refine ⟨put_empty cfg (profiles ++ "person/Default Person/") acid org, ?_, rfl⟩
    simp [_seed_defaults_if_empty, hpe, defaultPersonWrites, _ensure_folders, ensureOne, hs1]
  · rintro ⟨w, hw, hkey⟩
    by_contra hcne
    have hw' : w ∈ (if created.persons = [] then defaultPersonWrites cfg profiles acid org else []) := by
      simpa [_seed_defaults_if_empty, hcne] using hw
    by_cases hp : created.persons = []
    · rw [if_pos hp] at hw'
      obtain ⟨rest, hrest⟩ := mem_defaultPersonWrites cfg profiles acid org w hw'
      rw [hrest] at hkey
      have hcut := str_append_left_cancel hkey
      exact append_head_ne rest (by decide) (by decide) hcut
    · rw [if_neg hp] at hw'
      simp at hw'
  · intro hce
    refine ⟨put_empty cfg (profiles ++ "company/Default Company/") acid org, ?_, rfl⟩
    simp [_seed_defaults_if_empty, hce, defaultCompanyWrites, _ensure_folders, ensureOne, ht1]
  · intro hpe
    constructor
    · simp [_seed_defaults_if_empty, hpe, defaultPersonWrites, _ensure_folders, ensureOne,
            hs1, hs2, hs3, hs4, hs5, hs6]
    · simp [_seed_defaults_if_empty, hpe, defaultPersonWrites, _ensure_folders, ensureOne,
            hs1, hs2, hs3, hs4, hs5, hs6]
  · intro hce
    constructor
    · simp [_seed_defaults_if_empty, hce, defaultCompanyWrites, _ensure_folders, ensureOne,
            ht1, ht2, ht3]
    · simp [_seed_defaults_if_empty, hce, defaultCompanyWrites, _ensure_folders, ensureOne,
            ht1, ht2, ht3]

/-- Witness for C6: with zero persons and one company created, the default
vehicle notes file is seeded but no default company is. -/
theorem seed_defaults_iff_witness :
    (put_text defaultCfg (("P/" ++ "person/Default Person/") ++ "vehicle/Default Vehicle/" ++ "notes.md")
        ("# Default Vehicle\n") ("abc123XYZ") none ("text/markdown"))
      ∈ _seed_defaults_if_empty defaultCfg ("P/") (Summary.mk [] ["Acme"]) ("abc123XYZ") none
    ∧ ¬ (∃ w ∈ _seed_defaults_if_empty defaultCfg ("P/") (Summary.mk [] ["Acme"]) ("abc123XYZ") none,
          w.key = "P/" ++ "company/Default Company/") :=
  ⟨((seed_defaults_iff defaultCfg ("P/") ("abc123XYZ") none (Summary.mk [] ["Acme"])).2.2.1 rfl).1,
   fun hex => by
     have hmp := (seed_defaults_iff defaultCfg ("P/") ("abc123XYZ") none (Summary.mk [] ["Acme"])).2.1.mp hex
     simp at hmp⟩

/-- The strip on character lists is Mathlib's right-drop after a left-drop. -/
theorem pyStrip_eq_rdrop (s : String) :
    pyStrip s = ⟨List.rdropWhile Char.isWhitespace (s.data.dropWhile Char.isWhitespace)⟩ := rfl

/-- Stripping is idempotent. -/
theorem pyStrip_idem (s : String) : pyStrip (pyStrip s) = pyStrip s := by
  apply String.ext
  show List.rdropWhile Char.isWhitespace
      (List.dropWhile Char.isWhitespace
        (List.rdropWhile Char.isWhitespace (List.dropWhile Char.isWhitespace s.data)))
    = List.rdropWhile Char.isWhitespace (List.dropWhile Char.isWhitespace s.data)
  rcases hv : List.rdropWhile Char.isWhitespace (List.dropWhile Char.isWhitespace s.data) with _ | ⟨a, v'⟩
  · simp
  · have hpre : List.IsPrefix (a :: v') (List.dropWhile Char.isWhitespace s.data) := by
      rw [← hv]
      exact List.rdropWhile_prefix _ _
    obtain ⟨t, ht⟩ := hpre
    have hne : List.dropWhile Char.isWhitespace s.data ≠ [] := by
      rw [← ht]
      simp
    have hhead : (List.dropWhile Char.isWhitespace s.data).head hne = a := by
      have h2 : List.dropWhile Char.isWhitespace s.data = a :: (v' ++ t) := by
        rw [← ht]
        simp
      simp [h2]
    have hna : Char.isWhitespace a = false := by
      have h1 := List.head_dropWhile_not Char.isWhitespace s.data hne
      rw [hhead] at h1
      exact h1
    have hdw : List.dropWhile Char.isWhitespace (a :: v') = a :: v' := by
      simp [List.dropWhile_cons, hna]
    rw [hdw, ← hv]
    exact List.rdropWhile_idempotent _ _

/-- Dropping leading whitespace from a whitespace-free list changes nothing. -/
theorem dropWhile_nonws_id {l : List Char} (h : ∀ c ∈ l, Char.isWhitespace c = false) :
    l.dropWhile Char.isWhitespace = l := by
  cases l with
  | nil => rfl
  | cons a t =>
    have ha : Char.isWhitespace a = false := h a (by simp)
    simp [List.dropWhile_cons, ha]

/-- Stripping a whitespace-free string changes nothing. -/
theorem pyStrip_of_nonws {r : String} (h : ∀ c ∈ r.data, Char.isWhitespace c = false) :
    pyStrip r = r := by
  have h1 : r.data.dropWhile Char.isWhitespace = r.data := dropWhile_nonws_id h
  have hrev : ∀ c ∈ r.data.reverse, Char.isWhitespace c = false := by
    intro c hc
    exact h c (List.mem_reverse.mp hc)
  have h2 : r.data.reverse.dropWhile Char.isWhitespace = r.data.reverse :=
    dropWhile_nonws_id hrev
  apply String.ext
  simp [pyStrip, h1, h2]

/-- On a well-formed raw nine-character base62 acid, formatting twice through
the api_v201 formatter equals formatting once: the display output is
whitespace-free and carries the prefix literal, so the second pass returns it
unchanged. -/
theorem api_fmt_idem_on9 (r : String) (hlen : r.data.length = 9)
    (hb : ∀ c ∈ r.data, isBase62 c = true) :
    api_fmt_acid_display (api_fmt_acid_display r) = api_fmt_acid_display r := by
  rw [api_fmt_eq_fmt r hlen hb]
  obtain ⟨a, b, c, d, e, f, g, i, j, hdata, hfmt⟩ := fmt_display_literal r hlen hb
  rw [hdata] at hb
  have hb1 := hb a (by simp)
  have hb2 := hb b (by simp)
  have hb3 := hb c (by simp)
  have hb4 := hb d (by simp)
  have hb5 := hb e (by simp)
  have hb6 := hb f (by simp)
  have hb7 := hb g (by simp)
  have hb8 := hb i (by simp)
  have hb9 := hb j (by simp)
  rw [hfmt]
  have hws : ∀ ch ∈ ('a' :: 'c' :: 'i' :: 'd' :: '-' :: [a, b, c, '-', d, e, '-', f, g, i, j]),
      Char.isWhitespace ch = false := by
    intro ch hch
    simp at hch
    rcases hch with rfl | rfl | rfl | rfl | rfl | rfl | rfl | rfl | rfl | rfl | rfl | rfl | rfl | rfl | rfl | rfl
    · decide
    · decide
    · decide
    · decide
    · decide
    · exact base62_not_ws hb1
    · exact base62_not_ws hb2
    · exact base62_not_ws hb3
    · decide
    · exact base62_not_ws hb4
    · exact base62_not_ws hb5
    · decide
    · exact base62_not_ws hb6
    · exact base62_not_ws hb7
    · exact base62_not_ws hb8
    · exact base62_not_ws hb9
  have hstrip : pyStrip ⟨'a' :: 'c' :: 'i' :: 'd' :: '-' :: [a, b, c, '-', d, e, '-', f, g, i, j]⟩
      = ⟨'a' :: 'c' :: 'i' :: 'd' :: '-' :: [a, b, c, '-', d, e, '-', f, g, i, j]⟩ :=
    pyStrip_of_nonws hws
  have hpf : acidDash.isPrefixOf
      ('a' :: 'c' :: 'i' :: 'd' :: '-' :: [a, b, c, '-', d, e, '-', f, g, i, j]) = true := by
    simp [acidDash, List.isPrefixOf]
  simp [api_fmt_acid_display, hstrip, hpf]

/-- C3 counterexample: a metadata refresh also writes profiles/profiles.md —
an object that is neither metadata document — and writes it with the fixed
heading, which differs from the content the provisioning path put there, so
the object does not stay unchanged. -/
theorem meta_refresh_touches_profiles_md_cex :
    ((metaRefreshTrace ("gofinfi-portal") true 1000 [] ("t0") ("abc123XYZ") none none).any
      (fun w =>
        w.key == "a/acid-abc-12-3XYZ/profiles/profiles.md"
        && (match w.body with
            | WBody.text t => t == "# Profiles\n"
            | _ => false))) = true
    ∧ ("a/acid-abc-12-3XYZ/profiles/profiles.md" : String) ≠ "a/acid-abc-12-3XYZ/_meta/account.json"
    ∧ ("a/acid-abc-12-3XYZ/profiles/profiles.md" : String) ≠ "a/acid-abc-12-3XYZ/_meta/relationships.json"
    ∧ ((provisionTrace defaultCfg 0 ("abc123XYZ") (some ("org1")) none [] []).any
      (fun w =>
        w.key == "a/acid-abc-12-3XYZ/profiles/profiles.md"
        && (match w.body with
            | WBody.text t => t == "# Profiles\n\nLoose notes on profile changes.\n"
            | _ => false))) = true
    ∧ ("# Profiles\n" : String) ≠ "# Profiles\n\nLoose notes on profile changes.\n" := by
  decide

/-- C3 amended: a metadata refresh writes only the two metadata documents,
the nine section markers (with their .keep companions when enabled), and the
fixed profiles.md heading — nothing else, in particular nothing under the
person/ or company/ profile subtrees; and on a well-formed nine-character
base62 acid the doubly-formatted metadata base equals the account base. -/
theorem meta_refresh_write_set :
    (∀ bucket : String, ∀ keep : Bool, ∀ pageSize : Nat, ∀ keys : List String,
       ∀ nowIso acid : String, ∀ org name : Option String,
       ∀ w ∈ metaRefreshTrace bucket keep pageSize keys nowIso acid org name,
         w.key ∈ metaRefreshKeySet (_base (api_fmt_acid_display acid))
           (_base (api_fmt_acid_display (api_fmt_acid_display acid))))
    ∧ (∀ r : String, r.data.length = 9 → (∀ c ∈ r.data, isBase62 c = true) →
         _base (api_fmt_acid_display (api_fmt_acid_display r)) = _base (api_fmt_acid_display r)) := by
  constructor
  · intro bucket keep pageSize keys nowIso acid org name w hw
    have hb1 : pyEndsWithSlash (_base (api_fmt_acid_display acid) ++ "_meta/") = true :=
      endsSlash_append _ _ (by decide) (by decide)
    have hb2 : pyEndsWithSlash (_base (api_fmt_acid_display acid) ++ "uploads/") = true :=
      endsSlash_append _ _ (by decide) (by decide)
    have hb3 : pyEndsWithSlash (_base (api_fmt_acid_display acid) ++ "intake/") = true :=
      endsSlash_append _ _ (by decide) (by decide)
    have hb4 : pyEndsWithSlash (_base (api_fmt_acid_display acid) ++ "profiles/") = true :=
      endsSlash_append _ _ (by decide) (by decide)
    have hb5 : pyEndsWithSlash (_base (api_fmt_acid_display acid) ++ "applications/") = true :=
      endsSlash_append _ _ (by decide) (by decide)
    have hb6 : pyEndsWithSlash (_base (api_fmt_acid_display acid) ++ "exports/") = true :=
      endsSlash_append _ _ (by decide) (by decide)
    have hb7 : pyEndsWithSlash (_base (api_fmt_acid_display acid) ++ "shared/") = true :=
      endsSlash_append _ _ (by decide) (by decide)
    have hb8 : pyEndsWithSlash (_base (api_fmt_acid_display acid) ++ "worklog/") = true :=
      endsSlash_append _ _ (by decide) (by decide)
    have hb9 : pyEndsWithSlash (_base (api_fmt_acid_display acid) ++ "archive/") = true :=
      endsSlash_append _ _ (by decide) (by decide)
    cases keep with
    | true =>
      simp [metaRefreshTrace, _ensure_top, _refresh_meta, topNames, api_ensure_folder,
            hb1, hb2, hb3, hb4, hb5, hb6, hb7, hb8, hb9] at hw
      rcases hw with rfl | rfl | rfl | rfl | rfl | rfl | rfl | rfl | rfl | rfl | rfl | rfl | rfl | rfl | rfl | rfl | rfl | rfl | rfl | rfl | rfl <;>
        simp [metaRefreshKeySet, topNames, apiPut, api_put_text, api_put_json]
    | false =>
      simp [metaRefreshTrace, _ensure_top, _refresh_meta, topNames, api_ensure_folder,
            hb1, hb2, hb3, hb4, hb5, hb6, hb7, hb8, hb9] at hw
      rcases hw with rfl | rfl | rfl | rfl | rfl | rfl | rfl | rfl | rfl | rfl | rfl | rfl <;>
        simp [metaRefreshKeySet, topNames, apiPut, api_put_text, api_put_json]
  · intro r hlen hb
    rw [api_fmt_idem_on9 r hlen hb]

/-- Witness for C3 amended: the first write of a concrete refresh call is the
_meta/ section marker, inside the allowed key set, and on the well-formed
acid the two bases coincide. -/
theorem meta_refresh_write_set_witness :
    (apiPut (_base (api_fmt_acid_display ("abc123XYZ")) ++ "_meta/") WBody.empty none).key
      ∈ metaRefreshKeySet (_base (api_fmt_acid_display ("abc123XYZ")))
          (_base (api_fmt_acid_display (api_fmt_acid_display ("abc123XYZ"))))
    ∧ _base (api_fmt_acid_display (api_fmt_acid_display ("abc123XYZ")))
        = _base (api_fmt_acid_display ("abc123XYZ")) :=
  ⟨meta_refresh_write_set.1 ("gofinfi-portal") true 1000 [] ("t0") ("abc123XYZ") none none
      (apiPut (_base (api_fmt_acid_display ("abc123XYZ")) ++ "_meta/") WBody.empty none)
      (List.get?_mem
        (show (metaRefreshTrace ("gofinfi-portal") true 1000 [] ("t0") ("abc123XYZ") none none).get? 0
            = some (apiPut (_base (api_fmt_acid_display ("abc123XYZ")) ++ "_meta/") WBody.empty none)
          from rfl)),
   meta_refresh_write_set.2 ("abc123XYZ") (by decide) (by decide)⟩

/-- C2 counterexample: in the scenario trace the account.json write comes
strictly before the Default Person seeding write, and the account document it
writes holds no profiles key at all — so it cannot embed a persons list of
length one. -/
theorem provision_meta_before_seeding_cex :
    (cexTrace.findIdx (fun w => w.key == "a/acid-abc-12-3XYZ/_meta/account.json"))
      < (cexTrace.findIdx (fun w => w.key == "a/acid-abc-12-3XYZ/profiles/person/Default Person/"))
    ∧ (cexTrace.any (fun w => w.key == "a/acid-abc-12-3XYZ/profiles/person/Default Person/")) = true
    ∧ (cexTrace.any (fun w =>
        w.key == "a/acid-abc-12-3XYZ/_meta/account.json"
        && (match w.body with
            | WBody.json v => (jLookup ("profiles") v).isNone
            | _ => false))) = true := by
  decide

/-- Every write of aws._ensure_folders is a zero-byte marker. -/
theorem ensure_folders_bodies (cfg : Cfg) (ps : List String) (acid : String)
    (org : Option String) : ∀ w ∈ _ensure_folders cfg ps acid org, w.body = WBody.empty := by
  intro w hw
  by_cases hk : cfg.createKeepFiles
  · simp [_ensure_folders, ensureOne, hk] at hw
    obtain ⟨p, hp, hwp⟩ := hw
    rcases hwp with rfl | rfl <;> rfl
  · simp [_ensure_folders, ensureOne, hk] at hw
    obtain ⟨p, hp, rfl⟩ := hw
    rfl

/-- C2 amended: provision_account writes both metadata documents itself,
immediately after the section markers and before any content or seeding
write; the account document it publishes contains no profiles summary, and
the relationships document is the constant empty snapshot. -/
theorem provision_meta_first (cfg : Cfg) (now : Int) (acid : String)
    (org name : Option String) (persons : List PersonP) (companies : List CompanyP) :
    ∃ pre post,
      provisionTrace cfg now acid org name persons companies
        = pre
          ++ (put_json cfg
                ((_folders_top ("a/" ++ (normalize_acid acid).2 ++ "/") cfg.numberedLayout).meta ++ "account.json")
                (provisionAccountJson cfg now (normalize_acid acid).1 (normalize_acid acid).2 org name
                  (_folders_top ("a/" ++ (normalize_acid acid).2 ++ "/") cfg.numberedLayout))
                (normalize_acid acid).1 org
            :: put_json cfg
                ((_folders_top ("a/" ++ (normalize_acid acid).2 ++ "/") cfg.numberedLayout).meta ++ "relationships.json")
                (JVal.jobj [("people", JVal.jarr []), ("companies", JVal.jarr [])])
                (normalize_acid acid).1 org
            :: post)
      ∧ (∀ w ∈ pre, w.body = WBody.empty)
      ∧ jLookup ("profiles")
          (provisionAccountJson cfg now (normalize_acid acid).1 (normalize_acid acid).2 org name
            (_folders_top ("a/" ++ (normalize_acid acid).2 ++ "/") cfg.numberedLayout)) = none := by
  refine ⟨_ensure_folders cfg
      (_folders_top ("a/" ++ (normalize_acid acid).2 ++ "/") cfg.numberedLayout).values
      (normalize_acid acid).1 org, ?_, ?_, ?_, ?_⟩
  · exact [put_text cfg ((_folders_top ("a/" ++ (normalize_acid acid).2 ++ "/") cfg.numberedLayout).shared ++ "checklist.gdoc.link") checklistBody (normalize_acid acid).1 org ("application/json"),
           put_text cfg ((_folders_top ("a/" ++ (normalize_acid acid).2 ++ "/") cfg.numberedLayout).worklog ++ "progress-log.md") ("# Progress Log\n") (normalize_acid acid).1 org ("text/markdown"),
           put_text cfg ((_folders_top ("a/" ++ (normalize_acid acid).2 ++ "/") cfg.numberedLayout).worklog ++ "decisions.md") ("# Decisions\n") (normalize_acid acid).1 org ("text/markdown"),
           put_text cfg ((_folders_top ("a/" ++ (normalize_acid acid).2 ++ "/") cfg.numberedLayout).profiles ++ "profiles.md") ("# Profiles\n\nLoose notes on profile changes.\n") (normalize_acid acid).1 org ("text/markdown")]
      ++ (_seed_from_payload cfg (_folders_top ("a/" ++ (normalize_acid acid).2 ++ "/") cfg.numberedLayout).profiles (normalize_acid acid).1 org persons companies).1
      ++ _seed_defaults_if_empty cfg (_folders_top ("a/" ++ (normalize_acid acid).2 ++ "/") cfg.numberedLayout).profiles
          (_seed_from_payload cfg (_folders_top ("a/" ++ (normalize_acid acid).2 ++ "/") cfg.numberedLayout).profiles (normalize_acid acid).1 org persons companies).2
          (normalize_acid acid).1 org
      ++ (if cfg.seedSampleFiles then
            _seed_sample_files_legacy cfg (_folders_top ("a/" ++ (normalize_acid acid).2 ++ "/") cfg.numberedLayout) (normalize_acid acid).1 org
          else [])
  · simp [provisionTrace, provision_account, List.append_assoc]
  · exact ensure_folders_bodies cfg _ _ _
  · simp [jLookup, provisionAccountJson]

/-- C4 counterexample: a metadata-refresh write (the very operation the spec
covers) is issued with no tagging string and no encryption setting at all. -/
theorem api_write_untagged_cex :
    ((metaRefreshTrace ("gofinfi-portal") true 1000 [] ("t0") ("abc123XYZ") none none).any
      (fun w => w.tagging.isNone && w.sse.isNone)) = true := by
  decide

/-- Tagged writes compose under append. -/
theorem awsTagged_append {t : String} {s : SSEMode} {l1 l2 : List WriteOp}
    (h1 : awsTagged t s l1) (h2 : awsTagged t s l2) : awsTagged t s (l1 ++ l2) := by
  intro w hw
  rcases List.mem_append.mp hw with h | h
  · exact h1 w h
  · exact h2 w h

/-- Tagged writes compose under flat maps. -/
theorem awsTagged_flatMap {t : String} {s : SSEMode} {α : Type} {xs : List α}
    {f : α → List WriteOp} (h : ∀ x ∈ xs, awsTagged t s (f x)) :
    awsTagged t s (xs.flatMap f) := by
  intro w hw
  obtain ⟨x, hx, hwx⟩ := List.mem_flatMap.mp hw
  exact h x hx w hwx

/-- Tagged writes compose under maps of single writes. -/
theorem awsTagged_map {t : String} {s : SSEMode} {α : Type} {xs : List α}
    {f : α → WriteOp} (h : ∀ x, (f x).tagging = some t ∧ (f x).sse = some s) :
    awsTagged t s (xs.map f) := by
  intro w hw
  obtain ⟨x, hx, rfl⟩ := List.mem_map.mp hw
  exact h x

/-- Tagged writes compose under branching. -/
theorem awsTagged_ite {t : String} {s : SSEMode} (c : Prop) [Decidable c]
    {l1 l2 : List WriteOp} (h1 : awsTagged t s l1) (h2 : awsTagged t s l2) :
    awsTagged t s (if c then l1 else l2) := by
  split
  · exact h1
  · exact h2

/-- The empty write list is tagged. -/
theorem awsTagged_nil {t : String} {s : SSEMode} : awsTagged t s [] := by
  intro w hw
  simp at hw

/-- Tagged writes compose under cons. -/
theorem awsTagged_cons {t : String} {s : SSEMode} {w : WriteOp} {l : List WriteOp}
    (hw : w.tagging = some t ∧ w.sse = some s) (h : awsTagged t s l) :
    awsTagged t s (w :: l) := by
  intro w' hw'
  rcases List.mem_cons.mp hw' with rfl | h'
  · exact hw
  · exact h w' h'

/-- Every write of the aws._ensure_folders loop is tagged and encrypted. -/
theorem awsTagged_ensureOne (cfg : Cfg) (acid : String) (org : Option String) (p : String) :
    awsTagged (_tagging acid org) (_sse_kwargs cfg.kmsKeyId) (ensureOne cfg acid org p) := by
  unfold ensureOne
  apply awsTagged_append
  · exact awsTagged_cons ⟨rfl, rfl⟩ awsTagged_nil
  · exact awsTagged_ite _ (awsTagged_cons ⟨rfl, rfl⟩ awsTagged_nil) awsTagged_nil

/-- aws._ensure_folders produces only tagged encrypted writes. -/
theorem awsTagged_ensure_folders (cfg : Cfg) (ps : List String) (acid : String)
    (org : Option String) :
    awsTagged (_tagging acid org) (_sse_kwargs cfg.kmsKeyId) (_ensure_folders cfg ps acid org) :=
  awsTagged_flatMap (fun p _ => awsTagged_ensureOne cfg acid org p)

/-- The person-seeding loop produces only tagged encrypted writes. -/
theorem awsTagged_seedPerson (cfg : Cfg) (profiles acid : String) (org : Option String)
    (p : PersonP) :
    awsTagged (_tagging acid org) (_sse_kwargs cfg.kmsKeyId) (seedPerson cfg profiles acid org p) := by
  unfold seedPerson
  apply awsTagged_append
  apply awsTagged_append
  apply awsTagged_append
  · exact awsTagged_ensure_folders cfg _ acid org
  · rcases p.notes with _ | t
    · exact awsTagged_nil
    · exact awsTagged_ite _ awsTagged_nil (awsTagged_cons ⟨rfl, rfl⟩ awsTagged_nil)
  · apply awsTagged_flatMap
    intro v hv
    apply awsTagged_append
    · exact awsTagged_ensure_folders cfg _ acid org
    · exact awsTagged_cons ⟨rfl, rfl⟩ awsTagged_nil
  · apply awsTagged_flatMap
    intro d hd
    apply awsTagged_append
    · exact awsTagged_ensure_folders cfg _ acid org
    · exact awsTagged_cons ⟨rfl, rfl⟩ awsTagged_nil

/-- The company-seeding loop produces only tagged encrypted writes. -/
theorem awsTagged_seedCompany (cfg : Cfg) (profiles acid : String) (org : Option String)
    (c : CompanyP) :
    awsTagged (_tagging acid org) (_sse_kwargs cfg.kmsKeyId) (seedCompany cfg profiles acid org c) := by
  unfold seedCompany
  apply awsTagged_append
  apply awsTagged_append
  · exact awsTagged_ensure_folders cfg _ acid org
  · rcases c.notes with _ | t
    · exact awsTagged_nil
    · exact awsTagged_ite _ awsTagged_nil (awsTagged_cons ⟨rfl, rfl⟩ awsTagged_nil)
  · apply awsTagged_flatMap
    intro dom hdom
    apply awsTagged_append
    · exact awsTagged_ensure_folders cfg _ acid org
    · exact awsTagged_cons ⟨rfl, rfl⟩ (awsTagged_cons ⟨rfl, rfl⟩ awsTagged_nil)

/-- The default seeding produces only tagged encrypted writes. -/
theorem awsTagged_seed_defaults (cfg : Cfg) (profiles : String) (created : Summary)
    (acid : String) (org : Option String) :
    awsTagged (_tagging acid org) (_sse_kwargs cfg.kmsKeyId)
      (_seed_defaults_if_empty cfg profiles created acid org) := by
  unfold _seed_defaults_if_empty defaultPersonWrites defaultCompanyWrites
  apply awsTagged_append
  · apply awsTagged_ite
    · apply awsTagged_append
      apply awsTagged_append
      apply awsTagged_append
      · exact awsTagged_ensure_folders cfg _ acid org
      · exact awsTagged_cons ⟨rfl, rfl⟩ awsTagged_nil
      · exact awsTagged_ensure_folders cfg _ acid org
      · exact awsTagged_cons ⟨rfl, rfl⟩ (awsTagged_cons ⟨rfl, rfl⟩ awsTagged_nil)
    · exact awsTagged_nil
  · apply awsTagged_ite
    · apply awsTagged_append
      · exact awsTagged_ensure_folders cfg _ acid org
      · exact awsTagged_cons ⟨rfl, rfl⟩ awsTagged_nil
    · exact awsTagged_nil

/-- The legacy demo seeding produces only tagged encrypted writes. -/
theorem awsTagged_legacy (cfg : Cfg) (tops : Tops) (acid : String) (org : Option String) :
    awsTagged (_tagging acid org) (_sse_kwargs cfg.kmsKeyId)
      (_seed_sample_files_legacy cfg tops acid org) := by
  simp only [_seed_sample_files_legacy]
  repeat
    first
    | exact awsTagged_nil
    | exact awsTagged_ensure_folders cfg _ acid org
    | exact awsTagged_map (fun _ => ⟨rfl, rfl⟩)
    | apply awsTagged_append
    | apply awsTagged_ite
    | apply awsTagged_cons ⟨rfl, rfl⟩

/-- Untagged writes compose under append. -/
theorem apiUntagged_append {l1 l2 : List WriteOp}
    (h1 : apiUntagged l1) (h2 : apiUntagged l2) : apiUntagged (l1 ++ l2) := by
  intro w hw
  rcases List.mem_append.mp hw with h | h
  · exact h1 w h
  · exact h2 w h

/-- Untagged writes compose under flat maps. -/
theorem apiUntagged_flatMap {α : Type} {xs : List α} {f : α → List WriteOp}
    (h : ∀ x ∈ xs, apiUntagged (f x)) : apiUntagged (xs.flatMap f) := by
  intro w hw
  obtain ⟨x, hx, hwx⟩ := List.mem_flatMap.mp hw
  exact h x hx w hwx

/-- Untagged writes compose under branching. -/
theorem apiUntagged_ite (c : Prop) [Decidable c] {l1 l2 : List WriteOp}
    (h1 : apiUntagged l1) (h2 : apiUntagged l2) : apiUntagged (if c then l1 else l2) := by
  split
  · exact h1
  · exact h2

/-- The empty write list is untagged. -/
theorem apiUntagged_nil : apiUntagged [] := by
  intro w hw
  simp at hw

/-- Untagged writes compose under cons. -/
theorem apiUntagged_cons {w : WriteOp} {l : List WriteOp}
    (hw : w.tagging = none ∧ w.sse = none) (h : apiUntagged l) : apiUntagged (w :: l) := by
  intro w' hw'
  rcases List.mem_cons.mp hw' with rfl | h'
  · exact hw
  · exact h w' h'

/-- api_v201._ensure_folder writes carry neither tagging nor encryption. -/
theorem apiUntagged_ensure_folder (keep : Bool) (p : String) :
    apiUntagged (api_ensure_folder keep p) := by
  unfold api_ensure_folder
  apply apiUntagged_append
  · exact apiUntagged_cons ⟨rfl, rfl⟩ apiUntagged_nil
  · exact apiUntagged_ite _ (apiUntagged_cons ⟨rfl, rfl⟩ apiUntagged_nil) apiUntagged_nil

/-- api_v201._ensure_top writes carry neither tagging nor encryption. -/
theorem apiUntagged_ensure_top (keep : Bool) (disp : String) :
    apiUntagged (_ensure_top keep disp) := by
  unfold _ensure_top
  apply apiUntagged_append
  · exact apiUntagged_flatMap (fun n _ => apiUntagged_ensure_folder keep _)
  · exact apiUntagged_cons ⟨rfl, rfl⟩ apiUntagged_nil

/-- api_v201._refresh_meta writes carry neither tagging nor encryption. -/
theorem apiUntagged_refresh (bucket : String) (pageSize : Nat) (keys : List String)
    (nowIso acid : String) (org name : Option String) :
    apiUntagged (_refresh_meta bucket pageSize keys nowIso acid org name).1 := by
  simp only [_refresh_meta]
  exact apiUntagged_cons ⟨rfl, rfl⟩ (apiUntagged_cons ⟨rfl, rfl⟩ apiUntagged_nil)

/-- C4 amended: every write the aws provisioning path issues carries the
account (and org) tagging string and a server-side-encryption setting, KMS
when configured and AES256 otherwise; every write the api_v201 module issues
(metadata refresh, add person, add company) carries neither a tagging string
nor an encryption setting. -/
theorem write_tagging_split :
    (∀ cfg : Cfg, ∀ now : Int, ∀ acid : String, ∀ org name : Option String,
       ∀ persons : List PersonP, ∀ companies : List CompanyP,
       ∀ w ∈ provisionTrace cfg now acid org name persons companies,
         w.tagging = some (_tagging (normalize_acid acid).1 org)
         ∧ w.sse = some (_sse_kwargs cfg.kmsKeyId))
    ∧ (∀ bucket : String, ∀ keep : Bool, ∀ pageSize : Nat, ∀ keys : List String,
       ∀ nowIso acid : String, ∀ org name : Option String,
       ∀ w ∈ metaRefreshTrace bucket keep pageSize keys nowIso acid org name,
         w.tagging = none ∧ w.sse = none)
    ∧ (∀ bucket : String, ∀ keep : Bool, ∀ pageSize : Nat, ∀ keys : List String,
       ∀ nowIso acid : String, ∀ p : PersonReqP, ∀ org name : Option String,
       ∀ w ∈ addPersonTrace bucket keep pageSize keys nowIso acid p org name,
         w.tagging = none ∧ w.sse = none)
    ∧ (∀ bucket : String, ∀ keep : Bool, ∀ pageSize : Nat, ∀ keys : List String,
       ∀ nowIso acid : String, ∀ c : CompanyReqP, ∀ org name : Option String,
       ∀ w ∈ addCompanyTrace bucket keep pageSize keys nowIso acid c org name,
         w.tagging = none ∧ w.sse = none) := by
  refine ⟨?_, ?_, ?_, ?_⟩
  · intro cfg now acid org name persons companies
    unfold provisionTrace provision_account
    apply awsTagged_append
    apply awsTagged_append
    apply awsTagged_append
    apply awsTagged_append
    · exact awsTagged_ensure_folders cfg _ _ org
    · exact awsTagged_cons ⟨rfl, rfl⟩ (awsTagged_cons ⟨rfl, rfl⟩ (awsTagged_cons ⟨rfl, rfl⟩
        (awsTagged_cons ⟨rfl, rfl⟩ (awsTagged_cons ⟨rfl, rfl⟩ (awsTagged_cons ⟨rfl, rfl⟩ awsTagged_nil)))))
    · apply awsTagged_append
      · exact awsTagged_flatMap (fun p _ => awsTagged_seedPerson cfg _ _ org p)
      · exact awsTagged_flatMap (fun c _ => awsTagged_seedCompany cfg _ _ org c)
    · exact awsTagged_seed_defaults cfg _ _ _ org
    · exact awsTagged_ite _ (awsTagged_legacy cfg _ _ org) awsTagged_nil
  · intro bucket keep pageSize keys nowIso acid org name
    apply apiUntagged_append
    · exact apiUntagged_ensure_top keep _
    · exact apiUntagged_refresh bucket pageSize keys nowIso _ org name
  · intro bucket keep pageSize keys nowIso acid p org name
    simp only [addPersonTrace]
    apply apiUntagged_append
    apply apiUntagged_append
    apply apiUntagged_append
    apply apiUntagged_append
    apply apiUntagged_append
    apply apiUntagged_append
    apply apiUntagged_append
    apply apiUntagged_append
    · exact apiUntagged_ensure_top keep _
    · exact apiUntagged_ensure_folder keep _
    · exact apiUntagged_cons ⟨rfl, rfl⟩ apiUntagged_nil
    · exact apiUntagged_ensure_folder keep _
    · exact apiUntagged_ensure_folder keep _
    · exact apiUntagged_ensure_folder keep _
    · exact apiUntagged_flatMap (fun d _ =>
        apiUntagged_append (apiUntagged_ensure_folder keep _)
          (apiUntagged_cons ⟨rfl, rfl⟩ apiUntagged_nil))
    · exact apiUntagged_flatMap (fun v _ =>
        apiUntagged_append (apiUntagged_ensure_folder keep _)
          (apiUntagged_cons ⟨rfl, rfl⟩ apiUntagged_nil))
    · exact apiUntagged_refresh bucket pageSize keys nowIso _ org name
  · intro bucket keep pageSize keys nowIso acid c org name
    simp only [addCompanyTrace]
    apply apiUntagged_append
    apply apiUntagged_append
    apply apiUntagged_append
    apply apiUntagged_append
    apply apiUntagged_append
    apply apiUntagged_append
    apply apiUntagged_append
    · exact apiUntagged_ensure_top keep _
    · exact apiUntagged_ensure_folder keep _
    · exact apiUntagged_cons ⟨rfl, rfl⟩ apiUntagged_nil
    · exact apiUntagged_ensure_folder keep _
    · exact apiUntagged_ensure_folder keep _
    · exact apiUntagged_ensure_folder keep _
    · exact apiUntagged_flatMap (fun dom _ =>
        apiUntagged_append (apiUntagged_ensure_folder keep _)
          (apiUntagged_cons ⟨rfl, rfl⟩ (apiUntagged_cons ⟨rfl, rfl⟩ apiUntagged_nil)))
    · exact apiUntagged_refresh bucket pageSize keys nowIso _ org name

/-- Witness for C4 amended: the first provision write is tagged and
encrypted; the first metadata-refresh write carries neither. -/
theorem write_tagging_split_witness :
    ((put_empty defaultCfg ("a/acid-abc-12-3XYZ/_meta/") ("abc123XYZ") (some ("org1"))).tagging
        = some (_tagging (normalize_acid ("abc123XYZ")).1 (some ("org1")))
      ∧ (put_empty defaultCfg ("a/acid-abc-12-3XYZ/_meta/") ("abc123XYZ") (some ("org1"))).sse
        = some (_sse_kwargs defaultCfg.kmsKeyId))
    ∧ ((apiPut (_base (api_fmt_acid_display ("abc123XYZ")) ++ "_meta/") WBody.empty none).tagging = none
      ∧ (apiPut (_base (api_fmt_acid_display ("abc123XYZ")) ++ "_meta/") WBody.empty none).sse = none) :=
  ⟨write_tagging_split.1 defaultCfg 0 ("abc123XYZ") (some ("org1")) none [] []
      (put_empty defaultCfg ("a/acid-abc-12-3XYZ/_meta/") ("abc123XYZ") (some ("org1")))
      (List.get?_mem
        (show (provisionTrace defaultCfg 0 ("abc123XYZ") (some ("org1")) none [] []).get? 0
            = some (put_empty defaultCfg ("a/acid-abc-12-3XYZ/_meta/") ("abc123XYZ") (some ("org1")))
          from rfl)),
   write_tagging_split.2.1 ("gofinfi-portal") true 1000 [] ("t0") ("abc123XYZ") none none
      (apiPut (_base (api_fmt_acid_display ("abc123XYZ")) ++ "_meta/") WBody.empty none)
      (List.get?_mem
        (show (metaRefreshTrace ("gofinfi-portal") true 1000 [] ("t0") ("abc123XYZ") none none).get? 0
            = some (apiPut (_base (api_fmt_acid_display ("abc123XYZ")) ++ "_meta/") WBody.empty none)
          from rfl))⟩
